import Mathlib

/-!
Verification development for the file-engine fine-tuning scripts
(`fine-tune.py`, `generate-training-data.py`, `gen-v2-pages.py`,
`gen-v3-master.py`, `v4-batch1-pages.py`).

The Python scripts are embedded shallowly: JSON values become an inductive
type, Python dynamic failures (KeyError, TypeError, IndexError) become an
error monad, and each loop becomes a structurally recursive function.
-/

/-! ## A model of parsed JSON values.

A line of a JSONL file is modelled as `Option JVal`: `none` when
`json.loads` raises `JSONDecodeError`, `some v` when it parses to `v`. -/

inductive JVal where
  | jstr  : String → JVal
  | jnum  : Int → JVal
  | jbool : Bool → JVal
  | jnull : JVal
  | jarr  : List JVal → JVal
  | jobj  : List (String × JVal) → JVal
deriving Repr

/-- Python runtime exceptions that `fine-tune.py` can raise. -/
inductive PyErr where
  | keyError : String → PyErr
  | typeError : PyErr
  | indexError : PyErr
  | jsonDecodeError : PyErr
deriving DecidableEq, Repr

mutual

/-- Structural equality of JSON values (Python `==` on loaded JSON). -/
def JVal.eqb : JVal → JVal → Bool
  | .jstr a, .jstr b => a == b
  | .jnum a, .jnum b => a == b
  | .jbool a, .jbool b => a == b
  | .jnull, .jnull => true
  | .jarr xs, .jarr ys => JVal.eqbList xs ys
  | .jobj xs, .jobj ys => JVal.eqbObj xs ys
  | _, _ => false

def JVal.eqbList : List JVal → List JVal → Bool
  | [], [] => true
  | x :: xs, y :: ys => JVal.eqb x y && JVal.eqbList xs ys
  | _, _ => false

def JVal.eqbObj : List (String × JVal) → List (String × JVal) → Bool
  | [], [] => true
  | (k1, v1) :: xs, (k2, v2) :: ys => k1 == k2 && JVal.eqb v1 v2 && JVal.eqbObj xs ys
  | _, _ => false

end

/-- First value bound to `key` in an association list (a loaded JSON
object has no duplicate keys, so first match is the Python dict lookup). -/
def lookupKey : List (String × JVal) → String → Option JVal
  | [], _ => none
  | (k, v) :: rest, key => if k = key then some v else lookupKey rest key

/-- Python `v[key]` for a string key: dict lookup (KeyError when absent),
TypeError on lists, strings and scalars. -/
def JVal.getItem : JVal → String → Except PyErr JVal
  | .jobj kvs, key =>
    match lookupKey kvs key with
    | some v => .ok v
    | none => .error (.keyError key)
  | _, _ => .error .typeError

/-- Python `v[i]` for an integer index `i ≥ 0`: list/str indexing
(IndexError when out of range), KeyError on dicts, TypeError on scalars. -/
def JVal.getIdx : JVal → Nat → Except PyErr JVal
  | .jarr xs, i =>
    match xs[i]? with
    | some v => .ok v
    | none => .error .indexError
  | .jstr s, i =>
    match s.toList[i]? with
    | some c => .ok (.jstr (String.mk [c]))
    | none => .error .indexError
  | .jobj _, _ => .error (.keyError "int")
  | _, _ => .error .typeError

/-- `pat` occurs as a substring of `s` (Python `pat in s`). -/
def strContains (s pat : String) : Bool :=
  if pat.isEmpty then true else (s.splitOn pat).length ≠ 1

/-- Python `key in v`: key membership for dicts, element membership for
lists, substring test for strings, TypeError for scalars. -/
def JVal.hasKey : JVal → String → Except PyErr Bool
  | .jobj kvs, key => .ok (lookupKey kvs key).isSome
  | .jarr xs, key => .ok (xs.any fun v => JVal.eqb v (.jstr key))
  | .jstr s, key => .ok (strContains s key)
  | _, _ => .error .typeError

/-- Python `len(v)`: length of lists, strings and dicts, TypeError otherwise. -/
def JVal.pyLen : JVal → Except PyErr Nat
  | .jarr xs => .ok xs.length
  | .jstr s => .ok s.length
  | .jobj kvs => .ok kvs.length
  | _ => .error .typeError

/-- Python iteration `for m in v`: elements of a list, characters of a
string, keys of a dict, TypeError for scalars. -/
def JVal.pyIter : JVal → Except PyErr (List JVal)
  | .jarr xs => .ok xs
  | .jstr s => .ok (s.toList.map fun c => .jstr (String.mk [c]))
  | .jobj kvs => .ok (kvs.map fun kv => JVal.jstr kv.1)
  | _ => .error .typeError

/-! ## fine-tune.py: `validate` (lines 28-77)

`validate()` reads `TRAINING_FILE`, checks every line and collects error
messages into a list.  Each appended message is modelled by a `VError`
constructor carrying the data interpolated into the message. -/

/-- One entry of the `errors` list built by `validate`. -/
inductive VError where
  | invalidJson : Nat → VError
  | missingMessages : Nat → VError
  | needAtLeastTwo : Nat → VError
  | badFirstRole : Nat → JVal → VError
  | missingRoleOrContent : Nat → Nat → VError
deriving Repr

/-- `roles[0] not in ("system", "user")` negated: membership of a loaded
JSON value in the tuple of the two role strings. -/
def isSystemOrUser : JVal → Bool
  | .jstr s => s == "system" || s == "user"
  | _ => false

/-- The comprehension `roles = [m["role"] for m in messages]`.  Note that
this raises `KeyError` as soon as one message lacks a `"role"` key. -/
def getRoles : List JVal → Except PyErr (List JVal)
  | [] => .ok []
  | m :: rest => do
    let r ← m.getItem "role"
    let rs ← getRoles rest
    return r :: rs

/-- The loop `for j, msg in enumerate(messages)` appending a
`Missing 'role' or 'content'` message for offending entries. -/
def missingFieldErrors (i : Nat) : Nat → List JVal → Except PyErr (List VError)
  | _, [] => .ok []
  | j, m :: rest => do
    let hasRole ← m.hasKey "role"
    let hasContent ← m.hasKey "content"
    let tail ← missingFieldErrors i (j + 1) rest
    if !hasRole || !hasContent then
      return .missingRoleOrContent i j :: tail
    else
      return tail

/-- The body of `validate`'s per-line loop: the error messages appended
for line `i` (`.error` when the iteration raises an uncaught exception,
which in the source aborts the whole run). -/
def checkLine (i : Nat) (line : Option JVal) : Except PyErr (List VError) := do
  match line with
  | none => return [.invalidJson i]
  | some data =>
    let hasMsgs ← data.hasKey "messages"
    if !hasMsgs then
      return [.missingMessages i]
    else
      let messages ← data.getItem "messages"
      let n ← messages.pyLen
      if n < 2 then
        return [.needAtLeastTwo i]
      else
        let ms ← messages.pyIter
        let roles ← getRoles ms
        let r0 ← match roles[0]? with
          | some r => pure r
          | none => (.error .indexError : Except PyErr JVal)
        let firstErr : List VError :=
          if isSystemOrUser r0 then [] else [.badFirstRole i r0]
        let msgErrs ← missingFieldErrors i 0 ms
        return firstErr ++ msgErrs

/-- The `errors` list collected by `validate`, starting from line `i`. -/
def collectErrors : Nat → List (Option JVal) → Except PyErr (List VError)
  | _, [] => .ok []
  | i, line :: rest => do
    let es ← checkLine i line
    let tail ← collectErrors (i + 1) rest
    return es ++ tail

/-- The full `errors` list collected by `validate` over all lines. -/
def validateErrors (lines : List (Option JVal)) : Except PyErr (List VError) :=
  collectErrors 0 lines

/-- `sum(len(m["content"]) for m in ...)` over a message list. -/
def contentChars : List JVal → Except PyErr Nat
  | [] => .ok 0
  | m :: rest => do
    let c ← m.getItem "content"
    let n ← c.pyLen
    let tail ← contentChars rest
    return n + tail

/-- The per-line body of the token-statistics loop `validate` runs after
finding no errors: `sum(len(m["content"]) for m in data["messages"]) // 4`.
`json.loads` is outside any `try` here, so an unparsable line raises. -/
def statsLine (line : Option JVal) : Except PyErr Nat := do
  match line with
  | none => (.error .jsonDecodeError : Except PyErr Nat)
  | some data =>
    let msgs ← data.getItem "messages"
    let ms ← msgs.pyIter
    let chars ← contentChars ms
    return chars / 4

/-- The whole token-statistics loop: `total_tokens`. -/
def statsLoop : List (Option JVal) → Except PyErr Nat
  | [] => .ok 0
  | line :: rest => do
    let t ← statsLine line
    let tail ← statsLoop rest
    return t + tail

/-- `validate()`: `False` when errors were collected, otherwise runs the
statistics loop and returns `True`. -/
def validate (lines : List (Option JVal)) : Except PyErr Bool := do
  let errs ← validateErrors lines
  if errs.isEmpty then
    let _ ← statsLoop lines
    return true
  else
    return false

/-! ## fine-tune.py: `train` (lines 80-104), job-id file, `status`/`test` -/

/-- The two remote API calls `train` can make, in order. -/
inductive NetCall where
  | fileUpload : NetCall
  | jobCreate : NetCall
deriving DecidableEq, Repr

/-- A run of `train` on a given training file, with `jobId` the identifier
the remote API would assign.  Returns the network calls made, and the
content of `.fine-tune-job` afterwards (`none`: file not written).
When `validate` raises, the exception propagates before any upload. -/
def trainRun (lines : List (Option JVal)) (jobId : String) :
    Except PyErr (List NetCall × Option String) := do
  let ok ← validate lines
  if !ok then
    return ([], none)
  else
    return ([.fileUpload, .jobCreate], some jobId)

/-- `train` writes the job id with `f.write(job.id)`: the file content is
exactly the id. -/
def writeJobFile (jobId : String) : String := jobId

/-- Python `str.strip()`: drop leading and trailing whitespace. -/
def pyStrip (s : String) : String :=
  String.mk (((s.toList.dropWhile Char.isWhitespace).reverse.dropWhile
    Char.isWhitespace).reverse)

/-- `status`/`watch`/`test` read the id back with
`open(".fine-tune-job").read().strip()`. -/
def readJobId (fileContent : String) : String := pyStrip fileContent

/-! ## fine-tune.py: `watch` (lines 174-204)

The polling loop is driven by the remote API.  We model the environment
as the finite sequence of observations the API returns: on iteration `k`
the retrieved job status is `statuses[k]` and the event listing is
`eventLists[k]`.  The loop body breaks exactly on a terminal status. -/

/-- `job.status == "succeeded"` or `job.status == "failed"`. -/
def isTerminalStatus (s : String) : Bool :=
  s == "succeeded" || s == "failed"

/-- The `watch` polling loop over a finite sequence of retrieved statuses:
returns the iteration index at which the loop breaks (`break` on a
terminal status, otherwise sleep and poll again), or `none` when every
provided observation leaves it polling. -/
def watchPoll : List String → Option Nat
  | [] => none
  | s :: rest =>
    if isTerminalStatus s then some 0 else (watchPoll rest).map (· + 1)

/-- One remote fine-tuning event (`event.id`, `event.message`). -/
structure FTEvent where
  id : String
  message : String
deriving DecidableEq, Repr

/-- The inner event loop of one `watch` iteration:
`for event in reversed(list(events)): if event.id not in seen_events: ...`.
State: `seen_events` (modelled as a list of ids) and the events printed
so far, in print order. -/
def printNewEvents : List FTEvent → List String → List FTEvent →
    List String × List FTEvent
  | [], seen, out => (seen, out)
  | e :: rest, seen, out =>
    if e.id ∈ seen then printNewEvents rest seen out
    else printNewEvents rest (e.id :: seen) (out ++ [e])

/-- All `watch` iterations: each polling round processes its event listing
(in reversed order, as the source does) against the shared `seen_events`. -/
def watchEventLoop : List (List FTEvent) → List String → List FTEvent →
    List String × List FTEvent
  | [], seen, out => (seen, out)
  | evs :: rest, seen, out =>
    let so := printNewEvents evs.reverse seen out
    watchEventLoop rest so.1 so.2

/-- The events printed over a whole `watch` run (`seen_events = set()`
initially, nothing printed yet). -/
def watchPrinted (eventLists : List (List FTEvent)) : List FTEvent :=
  (watchEventLoop eventLists [] []).2

/-! ## The training-record generators

`generate-training-data.py`, `gen-v2-pages.py` and `gen-v3-master.py` each
build records `{"messages": [system, user, assistant]}` through a helper
named `ex`, and deduplicate merged outputs by a fixed-length user-message
key (`[:100]` in v1/v2, `[:120]` in v3). -/

/-- One role-tagged message turn. -/
structure Message where
  role : String
  content : String
deriving DecidableEq, Repr

/-- One supervised training example (a JSONL line of the outputs). -/
structure TrainingRecord where
  messages : List Message
deriving DecidableEq, Repr

/-- The `SYS` constant of generate-training-data.py (line 16). -/
def SYS_V1 : String :=
  "You are Aether, a world-class AI software engineer inside File Engine. You write production-quality code, debug systematically, and design with intention. Output code via ```language:filepath blocks. HTML must include <!DOCTYPE html>. Always mobile responsive. Brief intro then full code."

/-- The `SYS` constant of gen-v2-pages.py (lines 22-30). -/
def SYS_V2 : String :=
  "You are Aether, a world-class AI software engineer inside File Engine. You generate production-quality, visually stunning code with intentional design choices.\n\nRESPONSE FLOW: 1-2 line design plan stating aesthetic direction → complete code → brief note after if needed.\nRULES:\n- Code blocks use ```html:filepath format. The :filepath is REQUIRED.\n- HTML has <!DOCTYPE html>, viewport meta, ALL CSS in <style>, ALL JS in <script>\n- Mobile responsive ALWAYS. Dark themes: #0a0a0f base, never pure black. Light themes: off-white, never #fff.\n- COMPLETE code only. Zero placeholders, zero TODOs. Every file immediately runnable.\n- Every design choice is INTENTIONAL — fonts, colors, spacing, animations all serve a purpose."

/-- The `SYS` constant of gen-v3-master.py (lines 27-35); same text as v2. -/
def SYS_V3 : String :=
  "You are Aether, a world-class AI software engineer inside File Engine. You generate production-quality, visually stunning code with intentional design choices.\n\nRESPONSE FLOW: 1-2 line design plan stating aesthetic direction → complete code → brief note after if needed.\nRULES:\n- Code blocks use ```html:filepath format. The :filepath is REQUIRED.\n- HTML has <!DOCTYPE html>, viewport meta, ALL CSS in <style>, ALL JS in <script>\n- Mobile responsive ALWAYS. Dark themes: #0a0a0f base, never pure black. Light themes: off-white, never #fff.\n- COMPLETE code only. Zero placeholders, zero TODOs. Every file immediately runnable.\n- Every design choice is INTENTIONAL — fonts, colors, spacing, animations all serve a purpose."

/-- `ex(u, a)` of generate-training-data.py (lines 18-19). -/
def exV1 (u a : String) : TrainingRecord :=
  ⟨[⟨"system", SYS_V1⟩, ⟨"user", u⟩, ⟨"assistant", a⟩]⟩

/-- `ex(prompt, response)` of gen-v2-pages.py (lines 34-39). -/
def exV2 (prompt response : String) : TrainingRecord :=
  ⟨[⟨"system", SYS_V2⟩, ⟨"user", prompt⟩, ⟨"assistant", response⟩]⟩

/-- The record `ex(prompt, response, category)` of gen-v3-master.py
(lines 40-51) appends when the key is fresh. -/
def v3ExRecord (prompt response : String) : TrainingRecord :=
  ⟨[⟨"system", SYS_V3⟩, ⟨"user", prompt⟩, ⟨"assistant", response⟩]⟩

/-- gen-v3-master.py `ex`: dedup-checks `prompt[:120]` against
`seen_keys`, appends to `ALL` on success; returns the updated
`(seen_keys, ALL)` state and the function's boolean result. -/
def v3Ex (seen : List String) (all : List TrainingRecord)
    (prompt response : String) :
    (List String × List TrainingRecord) × Bool :=
  let key := prompt.take 120
  if key ∈ seen then ((seen, all), false)
  else ((key :: seen, all ++ [v3ExRecord prompt response]), true)

/-- A sequence of `ex` calls in gen-v3-master.py, threading the shared
`seen_keys`/`ALL` state. -/
def v3ExFold : List (String × String) → List String → List TrainingRecord →
    List String × List TrainingRecord
  | [], seen, all => (seen, all)
  | pr :: rest, seen, all =>
    let st := v3Ex seen all pr.1 pr.2
    v3ExFold rest st.1.1 st.1.2

/-- `e["messages"][1]["content"]` of a record, with `""` for records
having fewer than two messages (the scripts only apply this to records
built by `ex`, which always have three). -/
def userContent (r : TrainingRecord) : String :=
  ((r.messages[1]?).map Message.content).getD ""

/-- The fixed-length dedup key: `e["messages"][1]["content"][:n]`. -/
def recKey (n : Nat) (r : TrainingRecord) : String :=
  (userContent r).take n

/-- One dedup pass in the style shared by all generators:
`for e in recs: key = ...; if key not in seen: seen.add(key); out.append(e)`.
Returns the final `(seen, out)` state. -/
def dedupPass {α : Type} (key : α → String) :
    List α → List String → List α → List String × List α
  | [], seen, out => (seen, out)
  | e :: rest, seen, out =>
    if key e ∈ seen then dedupPass key rest seen out
    else dedupPass key rest (key e :: seen) (out ++ [e])

/-- The deduplicated list a fresh pass produces. -/
def dedupBy {α : Type} (key : α → String) (recs : List α) : List α :=
  (dedupPass key recs [] []).2

/-- Recursive restatement of the dedup pass used as the proof vehicle
(no output accumulator). -/
def dedupRec {α : Type} (key : α → String) : List String → List α → List α
  | _, [] => []
  | seen, e :: rest =>
    if key e ∈ seen then dedupRec key seen rest
    else e :: dedupRec key (key e :: seen) rest

/-- The `final` list of generate-training-data.py (lines 650-657): one
dedup pass over `hand_crafted + ALL` keyed on the first 100 characters of
the user message. -/
def v1FinalOutput (handCrafted generated : List TrainingRecord) :
    List TrainingRecord :=
  dedupBy (recKey 100) (handCrafted ++ generated)

/-- The `combined` list of gen-v2-pages.py (lines 1080-1092): two loops
over `ALL` and then `v1_examples`, sharing one `seen` set, keyed on the
first 100 characters of the user message. -/
def v2CombinedOutput (v2All v1Examples : List TrainingRecord) :
    List TrainingRecord :=
  let p1 := dedupPass (recKey 100) v2All [] []
  (dedupPass (recKey 100) v1Examples p1.1 p1.2).2

/-! ## generate-training-data.py: the `hand_crafted` load loop (640-648)
and gen-v3-master.py: the import loop (70-88) -/

/-- The v1 load loop: `try: hand_crafted.append(json.loads(line))
except: pass`.  Returns the loaded records and the list of error reports
the loop emits (the `except` branch reports nothing). -/
def handCraftedLoad : List (Option JVal) → List JVal × List String
  | [] => ([], [])
  | line :: rest =>
    let tail := handCraftedLoad rest
    match line with
    | some e => (e :: tail.1, tail.2)
    | none => (tail.1, tail.2)

/-- The key computation `e["messages"][1]["content"][:120]` of the v3
importing loop.  A non-string content raises before the key can be used
(slicing a scalar is a TypeError; a sliced list is unhashable for the
`key not in seen_keys` set test). -/
def v3ImportKey (e : JVal) : Except PyErr String := do
  let msgs ← e.getItem "messages"
  let m1 ← msgs.getIdx 1
  let c ← m1.getItem "content"
  match c with
  | .jstr s => return s.take 120
  | _ => (.error .typeError : Except PyErr String)

/-- The v3 import loop (gen-v3-master.py lines 70-88): parse each line,
compute the dedup key, and append fresh records to `ALL`; any exception
hits `except: pass`.  Returns the final `(seen_keys, ALL)` state and the
error reports the loop emits (none: the `except` branch only `pass`es). -/
def v3ImportLoop : List (Option JVal) → List String → List JVal →
    (List String × List JVal) × List String
  | [], seen, all => ((seen, all), [])
  | line :: rest, seen, all =>
    match line with
    | none => v3ImportLoop rest seen all
    | some e =>
      match v3ImportKey e with
      | .error _ => v3ImportLoop rest seen all
      | .ok k =>
        if k ∈ seen then v3ImportLoop rest seen all
        else v3ImportLoop rest (k :: seen) (all ++ [e])

/-! ## Spec-side characterizations

The following definitions restate, in pure declarative form, what the
spec says `validate` checks; they are compared against the embedded code
in the refinement theorems below. -/

/-- The message is a JSON object. -/
def isMsgObj : JVal → Bool
  | .jobj _ => true
  | _ => false

/-- The message object carries a `"role"` key. -/
def hasRoleKey : JVal → Bool
  | .jobj kvs => (lookupKey kvs "role").isSome
  | _ => false

/-- The message object carries a `"content"` key. -/
def hasContentKey : JVal → Bool
  | .jobj kvs => (lookupKey kvs "content").isSome
  | _ => false

/-- The `"role"` value of a message object (`jnull` as a don't-care
placeholder elsewhere). -/
def roleVal : JVal → JVal
  | .jobj kvs => (lookupKey kvs "role").getD .jnull
  | _ => .jnull

/-- The role of the first message of a message list. -/
def firstRoleVal (ms : List JVal) : JVal :=
  match ms[0]? with
  | some m => roleVal m
  | none => .jnull

/-- The line is unparsable, or parses to an object whose `messages`
value (when the key exists) is an array of objects: the chat-record
shape of the spec's file-format section. -/
def chatShapedLine : Option JVal → Bool
  | none => true
  | some (.jobj kvs) =>
    match lookupKey kvs "messages" with
    | none => true
    | some (.jarr ms) => ms.all isMsgObj
    | some _ => false
  | some _ => false

/-- Every message of a line that reaches the role comprehension in
`validate` carries a `"role"` key (lines that fail an earlier check
never reach it). -/
def rolesAllPresent : Option JVal → Bool
  | some (.jobj kvs) =>
    match lookupKey kvs "messages" with
    | some (.jarr ms) => decide (ms.length < 2) || ms.all hasRoleKey
    | _ => true
  | _ => true

/-- Spec-side: the `Missing 'role' or 'content'` failures of a message
list, with their message indices. -/
def specMissingFieldErrors (i : Nat) : Nat → List JVal → List VError
  | _, [] => []
  | j, m :: rest =>
    if hasRoleKey m && hasContentKey m then specMissingFieldErrors i (j + 1) rest
    else .missingRoleOrContent i j :: specMissingFieldErrors i (j + 1) rest

/-- Spec-side: the failures the spec lists for one line — invalid JSON,
missing `messages`, fewer than two messages, bad first role, message
missing role/content — in report order. -/
def specLineErrors (i : Nat) : Option JVal → List VError
  | none => [.invalidJson i]
  | some data =>
    match data with
    | .jobj kvs =>
      match lookupKey kvs "messages" with
      | none => [.missingMessages i]
      | some (.jarr ms) =>
        if ms.length < 2 then [.needAtLeastTwo i]
        else
          (if isSystemOrUser (firstRoleVal ms) then []
           else [.badFirstRole i (firstRoleVal ms)]) ++
          specMissingFieldErrors i 0 ms
      | some _ => []
    | _ => []

/-- Spec-side: the whole reported failure list, lines numbered from `i`. -/
def specErrorsFrom (i : Nat) : List (Option JVal) → List VError
  | [] => []
  | line :: rest => specLineErrors i line ++ specErrorsFrom (i + 1) rest

/-- Spec-side failure list of a file. -/
def specErrors (lines : List (Option JVal)) : List VError :=
  specErrorsFrom 0 lines

/-- The content value supports `len()` (string, array or object). -/
def contentHasLen : JVal → Bool
  | .jstr _ => true
  | .jarr _ => true
  | .jobj _ => true
  | _ => false

/-- The message object's `"content"` value exists and supports `len()`
(needed by the token-statistics pass). -/
def contentOK : JVal → Bool
  | .jobj kvs =>
    match lookupKey kvs "content" with
    | some c => contentHasLen c
    | none => false
  | _ => false

/-- Spec-side: a message `validate` fully accepts. -/
def msgOK (m : JVal) : Bool :=
  hasRoleKey m && contentOK m

/-- Spec-side: a line on which `validate` finds nothing to reject and
which the token-statistics pass survives. -/
def lineOK : Option JVal → Bool
  | none => false
  | some (.jobj kvs) =>
    match lookupKey kvs "messages" with
    | some (.jarr ms) =>
      decide (2 ≤ ms.length) && ms.all msgOK && isSystemOrUser (firstRoleVal ms)
    | _ => false
  | some _ => false

/-- Spec-side: the line parses and its `messages` array has fewer than
two entries. -/
def fewerThanTwoMessages : Option JVal → Bool
  | some (.jobj kvs) =>
    match lookupKey kvs "messages" with
    | some (.jarr ms) => decide (ms.length < 2)
    | _ => false
  | _ => false

/-! ## Concrete inputs used by the counterexamples and witnesses -/

/-- A record whose first message lacks `"role"` (but has content), with a
well-formed second message. -/
def missingRoleLine : JVal :=
  .jobj [("messages", .jarr
    [.jobj [("content", .jstr "hi")],
     .jobj [("role", .jstr "assistant"), ("content", .jstr "ok")]])]

/-- A record passing every check `validate` reports on — valid JSON,
`messages` present, two messages, first role `"user"`, both messages with
`"role"` and `"content"` — whose first content is the number `5`. -/
def numContentLine : JVal :=
  .jobj [("messages", .jarr
    [.jobj [("role", .jstr "user"), ("content", .jnum 5)],
     .jobj [("role", .jstr "assistant"), ("content", .jstr "ok")]])]

/-- A record whose `messages` array has a single entry. -/
def oneMessageLine : JVal :=
  .jobj [("messages", .jarr
    [.jobj [("role", .jstr "user"), ("content", .jstr "hi")]])]

/-- A fully well-formed three-message training record, as a JSON value. -/
def wellFormedRecordJson : JVal :=
  .jobj [("messages", .jarr
    [.jobj [("role", .jstr "system"), ("content", .jstr "sys prompt")],
     .jobj [("role", .jstr "user"), ("content", .jstr "hello world")],
     .jobj [("role", .jstr "assistant"), ("content", .jstr "hi there")]])]

/-- A second well-formed record with a different user message. -/
def otherRecordJson : JVal :=
  .jobj [("messages", .jarr
    [.jobj [("role", .jstr "system"), ("content", .jstr "sys prompt")],
     .jobj [("role", .jstr "user"), ("content", .jstr "another question")],
     .jobj [("role", .jstr "assistant"), ("content", .jstr "an answer")]])]

/-! ## The page template engines

`make_page` of gen-v2-pages.py (lines 236-566) and of v4-batch1-pages.py
(lines 157-299), embedded with their full literal content.  Dicts with a
fixed field set become structures; the dict fields `b["type"]` and
`f["import"]` become `btype` and `fontImport` because `type` and `import`
are reserved words. -/

/-- One entry of `FONT_PAIRINGS` in gen-v2-pages.py. -/
structure FontPairing where
  display : String
  body : String
  fontImport : String
  display_stack : String
  body_stack : String
  vibe : String

/-- One entry of `DARK_PALETTES`/`LIGHT_PALETTES` in gen-v2-pages.py. -/
structure V2Palette where
  bg : String
  surface : String
  surface_hover : String
  text : String
  muted : String
  secondary : String
  primary : String
  primary_hover : String
  primary_subtle : String
  primary_glow : String
  border : String
  border_hover : String

/-- One `(icon, title, desc)` feature triple of a v2 business. -/
structure V2Feature where
  icon : String
  title : String
  desc : String

/-- One entry of `BUSINESSES` in gen-v2-pages.py. -/
structure V2Business where
  name : String
  btype : String
  tagline : String
  desc : String
  features : List V2Feature

/-- One entry of `DARK_PALETTES`/`LIGHT_PALETTES` in v4-batch1-pages.py.
Dark palettes carry `glow` and light palettes carry `border`; the unused
field of each is irrelevant to `make_page`, which reads only the fields
of the active theme branch. -/
structure V4Palette where
  name : String
  bg : String
  surface : String
  text : String
  muted : String
  primary : String
  primary_hover : String
  glow : String
  border : String

/-- One entry of `BUSINESSES` in v4-batch1-pages.py. -/
structure V4Business where
  name : String
  tagline : String
  desc : String
  industry : String
  features : List String
  stats : List (String × String)

/-- `google_font_url` of v4-batch1-pages.py (lines 113-118). -/
def google_font_url (f1 f2 : String) : String :=
  let fam1 := f1.replace " " "+"
  let fam2 := f2.replace " " "+"
  if fam1 == fam2 then
    "https://fonts.googleapis.com/css2?family=" ++ fam1 ++ ":wght@400;500;600;700&display=swap"
  else
    "https://fonts.googleapis.com/css2?family=" ++ fam1 ++ ":wght@500;600;700&family=" ++
      fam2 ++ ":wght@400;500&display=swap"

/-- Value of one hexadecimal digit (palette colors only contain valid
digits, so the 0 fallback is never exercised by the generators). -/
def hexDigitVal (c : Char) : Nat :=
  if c.isDigit then c.toNat - 48
  else if 'a' ≤ c ∧ c ≤ 'f' then c.toNat - 87
  else if 'A' ≤ c ∧ c ≤ 'F' then c.toNat - 55
  else 0

/-- Python `int(s, 16)` on a hex-digit slice. -/
def hexVal (cs : List Char) : Nat :=
  cs.foldl (fun acc c => 16 * acc + hexDigitVal c) 0

/-- `make_features_html` of v4-batch1-pages.py (lines 120-134). -/
def v4MakeFeaturesHtml (features : List String) (card_style : String)
    (pal : V4Palette) (is_dark : Bool) : String :=
  let icons : List String := ["⚡", "🎯", "🔒", "📊", "🚀", "💡", "🔗", "🛡️", "📱", "🎨", "⭐", "🌐"]
  let cards := (features.take 6).enum.map (fun ifeat =>
    let i := ifeat.1
    let feat := ifeat.2
    let icon := icons.getD (i % icons.length) ""
    let cs :=
      if card_style == "glass" then
        "background:rgba(255,255,255," ++ (if is_dark then "0.03" else "0.6") ++
          ");backdrop-filter:blur(12px);-webkit-backdrop-filter:blur(12px);border:1px solid " ++
          (if is_dark then "rgba(255,255,255,0.06)" else "rgba(0,0,0,0.06)")
      else if card_style == "bordered" then
        "background:transparent;border:1px solid " ++
          (if is_dark then "rgba(255,255,255,0.08)" else "rgba(0,0,0,0.08)")
      else if card_style == "gradient_border" then
        "background:" ++ (if is_dark then "var(--surface)" else "#fff") ++
          ";border:1px solid " ++
          (if is_dark then "rgba(255,255,255,0.06)" else "rgba(0,0,0,0.06)") ++
          ";position:relative"
      else
        "background:var(--surface);border:1px solid " ++
          (if is_dark then "rgba(255,255,255,0.06)" else "rgba(0,0,0,0.06)")
    "<div class=\"fcard\" style=\"" ++ cs ++ "\"><div class=\"ficon\">" ++ icon ++
      "</div><h3>" ++ feat ++
      "</h3><p>Streamline your workflow with our powerful " ++ feat.toLower ++
      " capabilities built for modern teams.</p></div>")
  String.intercalate "\n" cards

/-- `make_stats_html` of v4-batch1-pages.py (lines 136-148). -/
def v4MakeStatsHtml (stats : List (String × String)) : String :=
  let items := stats.map (fun vl =>
    let val := vl.1
    let label := vl.2
    let dec := if strContains val "." then "1" else "0"
    let target :=
      ((((((((val.replace "," "").replace "+" "").replace "%" "").replace "/5" "").replace
        "$" "").replace "ms" "").replace "min" "").replace "B" "")
    let suffix :=
      if strContains val "+" then "+"
      else if strContains val "%" then "%"
      else if strContains val "/5" then "/5"
      else if strContains val "$" then ""
      else if strContains val "ms" then "ms"
      else ""
    "<div class=\"stat\"><div class=\"stat-val\" data-target=\"" ++ target ++
      "\" data-suffix=\"" ++ suffix ++ "\" data-decimal=\"" ++ dec ++
      "\">0</div><div class=\"stat-label\">" ++ label ++ "</div></div>")
  String.intercalate "\n" items

/-- One pricing card of gen-v2-pages.py `make_page` (lines 252-266). -/
def v2PriceCardHtml (i : Nat) (plan : String × String × String × String × List String) : String :=
  let featured := if i == 1 then " featured" else ""
  let badge := if i == 1 then "\n        <div class=\"price-badge\">Most Popular</div>" else ""
  let feat_items := (plan.2.2.2.2.map (fun feat => "<li>" ++ feat ++ "</li>")).foldl (· ++ ·) ""
  let btn_class := if i == 1 then "btn-primary" else "btn-ghost"
  let btn_text := if i == 1 then "Start Free Trial →" else (if i == 0 then "Get Started" else "Contact Sales")
  "\n      <div class=\"price-card" ++
  (featured) ++
  "\">" ++
  (badge) ++
  "\n        <div class=\"price-name\">" ++
  (plan.1) ++
  "</div>\n        <div class=\"price-amount\">" ++
  (plan.2.1) ++
  "<span>" ++
  (plan.2.2.1) ++
  "</span></div>\n        <div class=\"price-desc\">" ++
  (plan.2.2.2.1) ++
  "</div>\n        <ul class=\"price-features\">" ++
  (feat_items) ++
  "</ul>\n        <button class=\"btn " ++
  (btn_class) ++
  "\">" ++
  (btn_text) ++
  "</button>\n      </div>"

/-- The pricing section of gen-v2-pages.py `make_page` (lines 245-272). -/
def v2PricingHtml : String :=
  let plans : List (String × String × String × String × List String) := [
    ("Starter", "$0", "/mo", "For individuals & small teams",
      ["Up to 3 users", "Core features", "Community support", "1GB storage"]),
    ("Pro", "$19", "/user/mo", "For growing teams",
      ["Unlimited users", "Advanced features", "Priority support", "100GB storage", "API access"]),
    ("Enterprise", "Custom", "", "For large organizations",
      ["Everything in Pro", "SSO & SAML", "Dedicated support", "Custom SLA", "Data residency"])]
  let cards_html := (plans.enum.map (fun ipl => v2PriceCardHtml ipl.1 ipl.2)).foldl (· ++ ·) ""
  "\n  <section class=\"pricing\" id=\"pricing\">\n    <div class=\"section-header\"><h2>Simple, transparent pricing</h2><p>Start free. Scale when you\x27re ready.</p></div>\n    <div class=\"pricing-grid\">" ++
  (cards_html) ++
  "\n    </div>\n  </section>"

/-- The stats section of gen-v2-pages.py `make_page` (lines 275-279). -/
def v2StatsHtml : String :=
  let stats_data : List (String × String) :=
    [("12,000+", "Active Teams"), ("99.9%", "Uptime SLA"), ("< 50ms", "Avg Response"), ("150+", "Countries")]
  let items := (stats_data.map (fun s =>
    "<div class=\"stat\"><div class=\"stat-number\" data-target=\"" ++ s.1 ++ "\">" ++ s.1 ++
    "</div><div class=\"stat-label\">" ++ s.2 ++ "</div></div>")).foldl (· ++ ·) ""
  "\n  <section class=\"stats\">" ++ items ++ "</section>"

/-- One feature card of gen-v2-pages.py `make_page` (lines 282-289). -/
def v2FeatureCardHtml (ftr : V2Feature) : String :=
  "\n      <div class=\"feature-card fade-in\">\n        <div class=\"feature-icon\">" ++
  (ftr.icon) ++
  "</div>\n        <h3>" ++
  (ftr.title) ++
  "</h3>\n        <p>" ++
  (ftr.desc) ++
  "</p>\n      </div>"

/-- The features section of gen-v2-pages.py `make_page` (lines 291-296). -/
def v2FeaturesHtml (b : V2Business) : String :=
  let feat_cards := (b.features.map v2FeatureCardHtml).foldl (· ++ ·) ""
  "\n  <section class=\"features\" id=\"features\">\n    <div class=\"section-header\"><h2>Everything you need</h2><p>Powerful features that grow with your team</p></div>\n    <div class=\"features-grid\">" ++
  (feat_cards) ++
  "\n    </div>\n  </section>"

/-- The testimonials section of gen-v2-pages.py `make_page` (lines 299-318). -/
def v2TestimonialsHtml (b : V2Business) : String :=
  let quotes : List (String × String × String) := [
    (b.name ++ " transformed how our team works. We shipped 3x faster in the first month.",
      "Sarah Chen", "CTO at Meridian"),
    ("The best tool we\x27ve adopted this year. Period.", "Marcus Reeves", "VP Engineering at Scale"),
    ("We evaluated 12 tools before choosing " ++ b.name ++ ". No regrets.", "Priya Patel", "Founder at Lumina")]
  let cards := (quotes.map (fun q =>
    "\n      <div class=\"testimonial-card\">\n        <p>\"" ++
    (q.1) ++
    "\"</p>\n        <div class=\"testimonial-author\"><strong>" ++
    (q.2.1) ++
    "</strong><span>" ++
    (q.2.2) ++
    "</span></div>\n      </div>")).foldl (· ++ ·) ""
  "\n  <section class=\"testimonials\">\n    <div class=\"section-header\"><h2>Loved by teams everywhere</h2></div>\n    <div class=\"testimonials-grid\">" ++
  (cards) ++
  "\n    </div>\n  </section>"

/-- The FAQ section of gen-v2-pages.py `make_page` (lines 321-341). -/
def v2FaqHtml (b : V2Business) : String :=
  let faqs : List (String × String) := [
    ("Is there a free plan?", "Yes! " ++ b.name ++ " offers a generous free tier for individuals and small teams. No credit card required."),
    ("Can I cancel anytime?", "Absolutely. No contracts, no cancellation fees. You can downgrade or cancel at any time."),
    ("Is my data secure?", "We use bank-grade encryption, are SOC 2 Type II certified, and offer data residency controls."),
    ("Do you offer discounts for startups?", "Yes! We offer 50% off for the first year for qualifying startups. Contact us to learn more.")]
  let items := (faqs.map (fun qa =>
    "\n      <div class=\"faq-item\" onclick=\"this.classList.toggle(\x27open\x27)\">\n        <div class=\"faq-question\"><span>" ++
    (qa.1) ++
    "</span><span class=\"faq-toggle\">+</span></div>\n        <div class=\"faq-answer\"><p>" ++
    (qa.2) ++
    "</p></div>\n      </div>")).foldl (· ++ ·) ""
  "\n  <section class=\"faq\">\n    <div class=\"section-header\"><h2>Frequently asked questions</h2></div>\n    <div class=\"faq-list\">" ++
  (items) ++
  "\n    </div>\n  </section>"

/-- The hero markup of gen-v2-pages.py `make_page` (lines 344-382),
selected by `hero_style`. -/
def v2HeroContent (b : V2Business) (hero_style : String) : String :=
  if hero_style == "centered" then
    "\n    <div class=\"hero-badge\">✨ New: AI-powered features</div>\n    <h1>" ++
    ((b.tagline.splitOn " ").headD "") ++
    " <span>" ++
    (String.intercalate " " ((b.tagline.splitOn " ").drop 1)) ++
    "</span></h1>\n    <p>" ++
    (b.desc) ++
    "</p>\n    <div class=\"hero-cta\">\n      <button class=\"btn btn-primary\">Get Started Free →</button>\n      <button class=\"btn btn-ghost\">▶ Watch Demo</button>\n    </div>"
  else if hero_style == "left-aligned" then
    "\n    <div class=\"hero-badge\">✨ Now in public beta</div>\n    <h1>" ++
    (b.tagline) ++
    "</h1>\n    <p>" ++
    (b.desc) ++
    "</p>\n    <div class=\"hero-cta\">\n      <button class=\"btn btn-primary\">Start Free Trial →</button>\n      <button class=\"btn btn-ghost\">Learn More</button>\n    </div>"
  else
    "\n    <div class=\"hero-text\">\n      <div class=\"hero-badge\">✨ Trusted by 10,000+ teams</div>\n      <h1>" ++
    (b.tagline) ++
    "</h1>\n      <p>" ++
    (b.desc) ++
    "</p>\n      <div class=\"hero-cta\">\n        <button class=\"btn btn-primary\">Get Started →</button>\n        <button class=\"btn btn-ghost\">See Pricing</button>\n      </div>\n    </div>\n    <div class=\"hero-visual\"></div>"

/-- The testimonial CSS block of gen-v2-pages.py (lines 393-400). -/
def v2TestimonialCss : String :=
  "\n  .testimonials \x7b max-width: 1200px; margin: 0 auto; padding: 80px 24px; \x7d\n  .testimonials-grid \x7b display: grid; grid-template-columns: repeat(auto-fill, minmax(320px, 1fr)); gap: 20px; \x7d\n  .testimonial-card \x7b padding: 28px; background: var(--surface); border: 1px solid var(--border); border-radius: var(--radius); \x7d\n  .testimonial-card p \x7b font-size: 15px; font-style: italic; color: var(--text-secondary); margin-bottom: 16px; line-height: 1.7; \x7d\n  .testimonial-author \x7b font-size: 14px; \x7d\n  .testimonial-author strong \x7b color: var(--text); display: block; \x7d\n  .testimonial-author span \x7b color: var(--muted); \x7d"

/-- The FAQ CSS block of gen-v2-pages.py (lines 403-414). -/
def v2FaqCss : String :=
  "\n  .faq \x7b max-width: 700px; margin: 0 auto; padding: 80px 24px; \x7d\n  .faq-list \x7b display: flex; flex-direction: column; gap: 8px; \x7d\n  .faq-item \x7b border: 1px solid var(--border); border-radius: var(--radius); overflow: hidden; cursor: pointer; transition: border-color 0.2s; \x7d\n  .faq-item:hover \x7b border-color: var(--border-hover); \x7d\n  .faq-question \x7b padding: 16px 20px; display: flex; justify-content: space-between; align-items: center; font-weight: 600; font-size: 15px; \x7d\n  .faq-toggle \x7b font-size: 20px; color: var(--muted); transition: transform 0.2s; \x7d\n  .faq-answer \x7b max-height: 0; overflow: hidden; transition: max-height 0.3s ease, padding 0.3s ease; \x7d\n  .faq-answer p \x7b padding: 0 20px; font-size: 14px; color: var(--muted); line-height: 1.7; \x7d\n  .faq-item.open .faq-answer \x7b max-height: 200px; \x7d\n  .faq-item.open .faq-answer p \x7b padding: 0 20px 16px; \x7d\n  .faq-item.open .faq-toggle \x7b transform: rotate(45deg); \x7d"

/-- The split-hero CSS of gen-v2-pages.py `make_page` (lines 417-421). -/
def v2HeroVisualCss (p : V2Palette) (hero_style : String) : String :=
  if hero_style == "split" then
    "\n  .hero-visual \x7b aspect-ratio: 4/3; background: " ++
    ("linear-gradient(135deg, " ++ p.surface ++ ", " ++ p.surface_hover ++ ")") ++
    "; border-radius: var(--radius-lg); border: 1px solid var(--border); \x7d\n  @media (max-width: 768px) \x7b .hero \x7b grid-template-columns: 1fr !important; \x7d .hero-visual \x7b display: none; \x7d \x7d"
  else ""

/-- `make_page` of gen-v2-pages.py (lines 236-566): the complete HTML
page assembled from the design-system components.  Python keyword
arguments become positional parameters in source order; the dict fields
`b["type"]` and `f["import"]` become the record fields `btype` and
`fontImport`. -/
def makePageV2 (biz : V2Business) (fonts : FontPairing) (palette : V2Palette)
    (is_dark : Bool) (has_pricing has_stats has_testimonials has_faq : Bool)
    (hero_style card_style : String) : String :=
  let p := palette
  let f := fonts
  let b := biz
  let pricing_html := if has_pricing then v2PricingHtml else ""
  let stats_html := if has_stats then v2StatsHtml else ""
  let features_html := v2FeaturesHtml b
  let testimonials_html := if has_testimonials then v2TestimonialsHtml b else ""
  let faq_html := if has_faq then v2FaqHtml b else ""
  let hero_content := v2HeroContent b hero_style
  let hero_css_extra :=
    if hero_style == "centered" then "text-align: center;"
    else if hero_style == "left-aligned" then ""
    else "display: grid; grid-template-columns: 1fr 1fr; gap: 60px; align-items: center;"
  let hero_h1_max :=
    if hero_style == "centered" then "max-width: 700px; margin: 0 auto 20px;"
    else if hero_style == "left-aligned" then "max-width: 600px; margin-bottom: 20px;"
    else "margin-bottom: 20px;"
  let hero_p_max :=
    if hero_style == "centered" then "max-width: 520px; margin: 0 auto 40px;"
    else if hero_style == "left-aligned" then "max-width: 480px; margin-bottom: 40px;"
    else "margin-bottom: 40px;"
  let card_bg :=
    if card_style == "glass" then
      "background: rgba(" ++ (if is_dark then "255,255,255" else "0,0,0") ++ "," ++
        (if is_dark then "0.03" else "0.02") ++
        "); backdrop-filter: blur(20px); -webkit-backdrop-filter: blur(20px);"
    else if card_style == "bordered" then
      "background: transparent; border: 1.5px solid " ++ p.border_hover ++ ";"
    else
      "background: " ++ p.surface ++ ";"
  let testimonial_css := if has_testimonials then v2TestimonialCss else ""
  let faq_css := if has_faq then v2FaqCss else ""
  let hero_visual_css := v2HeroVisualCss p hero_style
  "<!DOCTYPE html>\n<html lang=\"en\">\n<head>\n<meta charset=\"UTF-8\">\n<meta name=\"viewport\" content=\"width=device-width, initial-scale=1.0\">\n<title>" ++
  (b.name) ++
  " — " ++
  (b.btype) ++
  "</title>\n<link href=\"https://fonts.googleapis.com/css2?family=" ++
  (f.fontImport) ++
  "&display=swap\" rel=\"stylesheet\">\n<style>\n  :root \x7b\n    --bg: " ++
  (p.bg) ++
  "; --surface: " ++
  (p.surface) ++
  "; --surface-hover: " ++
  (p.surface_hover) ++
  ";\n    --text: " ++
  (p.text) ++
  "; --muted: " ++
  (p.muted) ++
  "; --text-secondary: " ++
  (p.secondary) ++
  ";\n    --primary: " ++
  (p.primary) ++
  "; --primary-hover: " ++
  (p.primary_hover) ++
  ";\n    --primary-subtle: " ++
  (p.primary_subtle) ++
  "; --primary-glow: " ++
  (p.primary_glow) ++
  ";\n    --border: " ++
  (p.border) ++
  "; --border-hover: " ++
  (p.border_hover) ++
  ";\n    --font-display: " ++
  (f.display_stack) ++
  "; --font-body: " ++
  (f.body_stack) ++
  ";\n    --radius: 12px; --radius-lg: 16px;\n  \x7d\n  * \x7b margin: 0; padding: 0; box-sizing: border-box; \x7d\n  body \x7b font-family: var(--font-body); background: var(--bg); color: var(--text); line-height: 1.6; overflow-x: hidden; \x7d\n  a \x7b text-decoration: none; color: inherit; \x7d\n\n  /* Navigation */\n  nav \x7b position: fixed; top: 0; width: 100%; z-index: 100; padding: 16px 24px; background: " ++
  (if is_dark then "rgba(10,10,15,0.8)" else "rgba(255,255,255,0.85)") ++
  "; backdrop-filter: blur(20px); -webkit-backdrop-filter: blur(20px); border-bottom: 1px solid var(--border); \x7d\n  .nav-inner \x7b max-width: 1200px; margin: 0 auto; display: flex; align-items: center; justify-content: space-between; \x7d\n  .logo \x7b font-family: var(--font-display); font-size: 22px; font-weight: 700; " ++
  (if is_dark then "background: linear-gradient(135deg, var(--primary), var(--primary-hover)); -webkit-background-clip: text; -webkit-text-fill-color: transparent;" else "color: var(--text);") ++
  " \x7d\n  .nav-links \x7b display: flex; gap: 32px; align-items: center; \x7d\n  .nav-links a \x7b font-size: 14px; color: var(--muted); transition: color 0.2s; \x7d\n  .nav-links a:hover \x7b color: var(--text); \x7d\n  .btn \x7b padding: 10px 24px; border-radius: 8px; font-size: 14px; font-weight: 600; cursor: pointer; transition: all 0.2s; border: none; font-family: var(--font-body); \x7d\n  .btn-primary \x7b background: var(--primary); color: white; \x7d\n  .btn-primary:hover \x7b background: var(--primary-hover); transform: translateY(-1px); box-shadow: 0 0 20px var(--primary-glow); \x7d\n  .btn-ghost \x7b background: transparent; color: var(--text); border: 1px solid var(--border); \x7d\n  .btn-ghost:hover \x7b border-color: var(--border-hover); background: var(--surface); \x7d\n\n  /* Hero */\n  .hero \x7b padding: 160px 24px 80px; max-width: 1200px; margin: 0 auto; " ++
  (hero_css_extra) ++
  " position: relative; \x7d\n  .hero::before \x7b content: \x27\x27; position: absolute; top: 0; left: 50%; transform: translateX(-50%); width: 600px; height: 600px; background: radial-gradient(circle, var(--primary-subtle), transparent 70%); pointer-events: none; \x7d\n  .hero-badge \x7b display: inline-flex; align-items: center; gap: 8px; padding: 6px 16px; background: var(--primary-subtle); border: 1px solid " ++
  (if is_dark then "rgba(255,255,255,0.08)" else "rgba(0,0,0,0.06)") ++
  "; border-radius: 100px; font-size: 13px; color: var(--primary-hover); margin-bottom: 24px; \x7d\n  .hero h1 \x7b font-family: var(--font-display); font-size: clamp(36px, 6vw, 64px); font-weight: 700; line-height: 1.1; letter-spacing: -0.02em; " ++
  (hero_h1_max) ++
  " \x7d\n  .hero h1 span \x7b " ++
  (if is_dark then "background: linear-gradient(135deg, var(--primary), var(--primary-hover)); -webkit-background-clip: text; -webkit-text-fill-color: transparent;" else "color: var(--primary);") ++
  " \x7d\n  .hero p \x7b font-size: 18px; color: var(--muted); " ++
  (hero_p_max) ++
  " \x7d\n  .hero-cta \x7b display: flex; gap: 12px; " ++
  (if hero_style == "centered" then "justify-content: center;" else "") ++
  " flex-wrap: wrap; \x7d\n  " ++
  (hero_visual_css) ++
  "\n\n  /* Section Header */\n  .section-header \x7b text-align: center; margin-bottom: 60px; \x7d\n  .section-header h2 \x7b font-family: var(--font-display); font-size: 36px; font-weight: 700; margin-bottom: 12px; \x7d\n  .section-header p \x7b color: var(--muted); font-size: 16px; \x7d\n\n  /* Stats */\n  .stats \x7b display: flex; justify-content: center; gap: 48px; padding: 60px 24px; flex-wrap: wrap; \x7d\n  .stat \x7b text-align: center; \x7d\n  .stat-number \x7b font-family: var(--font-display); font-size: 42px; font-weight: 700; color: var(--primary-hover); \x7d\n  .stat-label \x7b font-size: 14px; color: var(--muted); margin-top: 4px; \x7d\n\n  /* Features */\n  .features \x7b max-width: 1200px; margin: 0 auto; padding: 80px 24px; \x7d\n  .features-grid \x7b display: grid; grid-template-columns: repeat(auto-fill, minmax(340px, 1fr)); gap: 20px; \x7d\n  .feature-card \x7b padding: 32px; " ++
  (card_bg) ++
  " border: 1px solid var(--border); border-radius: var(--radius-lg); transition: all 0.3s; \x7d\n  .feature-card:hover \x7b border-color: var(--border-hover); transform: translateY(-4px); box-shadow: 0 12px 24px " ++
  (if is_dark then "rgba(0,0,0,0.3)" else "rgba(0,0,0,0.06)") ++
  "; \x7d\n  .feature-icon \x7b width: 48px; height: 48px; border-radius: 12px; background: var(--primary-subtle); display: flex; align-items: center; justify-content: center; font-size: 22px; margin-bottom: 16px; \x7d\n  .feature-card h3 \x7b font-family: var(--font-display); font-size: 18px; font-weight: 600; margin-bottom: 8px; \x7d\n  .feature-card p \x7b font-size: 14px; color: var(--muted); line-height: 1.6; \x7d\n\n  /* Pricing */\n  .pricing \x7b max-width: 1000px; margin: 0 auto; padding: 80px 24px; \x7d\n  .pricing-grid \x7b display: grid; grid-template-columns: repeat(auto-fill, minmax(280px, 1fr)); gap: 20px; \x7d\n  .price-card \x7b padding: 32px; background: var(--surface); border: 1px solid var(--border); border-radius: var(--radius-lg); position: relative; \x7d\n  .price-card.featured \x7b border-color: var(--primary); " ++
  (if is_dark then "background: linear-gradient(180deg, var(--primary-subtle), var(--surface));" else "") ++
  " \x7d\n  .price-badge \x7b position: absolute; top: -12px; left: 50%; transform: translateX(-50%); background: var(--primary); color: white; padding: 4px 16px; border-radius: 100px; font-size: 12px; font-weight: 600; \x7d\n  .price-name \x7b font-family: var(--font-display); font-size: 20px; font-weight: 600; margin-bottom: 8px; \x7d\n  .price-amount \x7b font-family: var(--font-display); font-size: 48px; font-weight: 700; margin-bottom: 4px; \x7d\n  .price-amount span \x7b font-size: 16px; color: var(--muted); font-weight: 400; \x7d\n  .price-desc \x7b font-size: 14px; color: var(--muted); margin-bottom: 24px; \x7d\n  .price-features \x7b list-style: none; margin-bottom: 32px; \x7d\n  .price-features li \x7b padding: 8px 0; font-size: 14px; color: var(--text-secondary); display: flex; align-items: center; gap: 8px; \x7d\n  .price-features li::before \x7b content: \x27✓\x27; color: var(--primary-hover); font-weight: 700; \x7d\n  .price-card .btn \x7b width: 100%; text-align: center; display: block; \x7d\n  " ++
  (testimonial_css) ++
  "\n  " ++
  (faq_css) ++
  "\n\n  /* CTA */\n  .cta-section \x7b max-width: 800px; margin: 0 auto; padding: 80px 24px; text-align: center; \x7d\n  .cta-section h2 \x7b font-family: var(--font-display); font-size: 40px; font-weight: 700; margin-bottom: 16px; \x7d\n  .cta-section p \x7b color: var(--muted); font-size: 17px; margin-bottom: 32px; \x7d\n\n  /* Footer */\n  footer \x7b max-width: 1200px; margin: 0 auto; padding: 32px 24px; border-top: 1px solid var(--border); display: flex; justify-content: space-between; color: var(--muted); font-size: 13px; flex-wrap: wrap; gap: 8px; \x7d\n\n  /* Animations */\n  .fade-in \x7b opacity: 0; transform: translateY(20px); transition: opacity 0.6s ease, transform 0.6s ease; \x7d\n  .fade-in.visible \x7b opacity: 1; transform: translateY(0); \x7d\n\n  /* Mobile */\n  @media (max-width: 768px) \x7b\n    .nav-links \x7b display: none; \x7d\n    .hero \x7b padding-top: 100px; \x7d\n    .hero h1 \x7b font-size: 32px; \x7d\n    .stats \x7b gap: 24px; \x7d\n    .stat-number \x7b font-size: 32px; \x7d\n    .features-grid, .pricing-grid, .testimonials-grid \x7b grid-template-columns: 1fr; \x7d\n    footer \x7b flex-direction: column; \x7d\n  \x7d\n  @media (prefers-reduced-motion: reduce) \x7b .fade-in \x7b opacity: 1; transform: none; transition: none; \x7d \x7d\n</style>\n</head>\n<body>\n  <nav><div class=\"nav-inner\">\n    <a href=\"#\" class=\"logo\">" ++
  (b.name) ++
  "</a>\n    <div class=\"nav-links\">\n      <a href=\"#features\">Features</a>" ++
  (if has_pricing then "<a href=\"#pricing\">Pricing</a>" else "") ++
  "<a href=\"#\">Docs</a>\n      <button class=\"btn btn-ghost\">Sign In</button>\n      <button class=\"btn btn-primary\">Get Started →</button>\n    </div>\n  </div></nav>\n\n  <section class=\"hero\">" ++
  (hero_content) ++
  "\n  </section>\n  " ++
  (stats_html) ++
  "\n  " ++
  (features_html) ++
  "\n  " ++
  (testimonials_html) ++
  "\n  " ++
  (pricing_html) ++
  "\n  " ++
  (faq_html) ++
  "\n\n  <section class=\"cta-section\">\n    <h2>Ready to get started?</h2>\n    <p>Join thousands of teams already using " ++
  (b.name) ++
  " to " ++
  (((b.desc.splitOn ".").headD "").toLower.replace b.name.toLower "their workflow") ++
  ".</p>\n    <button class=\"btn btn-primary\">Start Free Trial →</button>\n  </section>\n\n  <footer><span>© 2026 " ++
  (b.name) ++
  ". All rights reserved.</span><span>Privacy · Terms · Status</span></footer>\n\n  <script>\n    // Fade-in on scroll\n    const faders = document.querySelectorAll(\x27.fade-in\x27);\n    const fadeObs = new IntersectionObserver(entries => \x7b\n      entries.forEach(e => \x7b if (e.isIntersecting) \x7b e.target.classList.add(\x27visible\x27); fadeObs.unobserve(e.target); \x7d \x7d);\n    \x7d, \x7b threshold: 0.1, rootMargin: \x270px 0px -50px 0px\x27 \x7d);\n    faders.forEach(f => fadeObs.observe(f));\n  </script>\n</body>\n</html>"

/-- `make_pricing_html` of v4-batch1-pages.py (lines 150-155); its
parameters are unused in the body but kept for signature fidelity. -/
def v4MakePricingHtml (name : String) (pal : V4Palette) (is_dark : Bool) : String :=
  "<div class=\"pricing-grid\">\n<div class=\"price-card\"><div class=\"price-name\">Starter</div><div class=\"price-amount\"><span class=\"currency\">$</span>29<span class=\"period\">/mo</span></div><p class=\"price-desc\">Perfect for individuals and small teams getting started.</p><ul class=\"price-features\"><li>Up to 5 team members</li><li>10GB storage</li><li>Basic analytics</li><li>Email support</li></ul><button class=\"btn-outline\">Get Started</button></div>\n<div class=\"price-card featured\"><div class=\"price-badge\">Most Popular</div><div class=\"price-name\">Professional</div><div class=\"price-amount\"><span class=\"currency\">$</span>79<span class=\"period\">/mo</span></div><p class=\"price-desc\">For growing teams that need more power and flexibility.</p><ul class=\"price-features\"><li>Unlimited team members</li><li>100GB storage</li><li>Advanced analytics</li><li>Priority support</li><li>Custom integrations</li></ul><button class=\"btn-primary\">Start Free Trial →</button></div>\n<div class=\"price-card\"><div class=\"price-name\">Enterprise</div><div class=\"price-amount\"><span class=\"currency\">$</span>199<span class=\"period\">/mo</span></div><p class=\"price-desc\">For organizations that need enterprise-grade features.</p><ul class=\"price-features\"><li>Everything in Pro</li><li>Unlimited storage</li><li>SSO & SAML</li><li>Dedicated support</li><li>Custom SLA</li></ul><button class=\"btn-outline\">Contact Sales</button></div>\n</div>"

/-- The hero markup of v4-batch1-pages.py `make_page` (lines 171-198),
selected by `hero_style`; `surface`, `bg`, `border` feed the split
variant's visual panel. -/
def v4HeroHtml (biz : V4Business) (hero_style surface bg border : String) : String :=
  if hero_style == "centered" then
    "<div class=\"hero-badge\">" ++
    (biz.industry.toUpper) ++
    " PLATFORM</div>\n<h1>" ++
    (biz.tagline) ++
    "</h1>\n<p class=\"hero-sub\">" ++
    (biz.name) ++
    " is the " ++
    (biz.desc) ++
    " that helps teams work smarter, ship faster, and scale with confidence.</p>\n<div class=\"hero-btns\"><a class=\"btn-primary\" href=\"#\">Start Free Trial →</a><a class=\"btn-ghost\" href=\"#\">Watch Demo</a></div>"
  else if hero_style == "left_aligned" then
    "<div class=\"hero-badge\">" ++
    (biz.industry.toUpper) ++
    " PLATFORM</div>\n<h1>" ++
    (biz.tagline) ++
    "</h1>\n<p class=\"hero-sub\">" ++
    (biz.name) ++
    " is the " ++
    (biz.desc) ++
    " that helps teams work smarter, ship faster, and scale with confidence.</p>\n<div class=\"hero-btns\"><a class=\"btn-primary\" href=\"#\">Start Free Trial →</a><a class=\"btn-ghost\" href=\"#\">Learn More</a></div>"
  else if hero_style == "split" then
    "<div><div class=\"hero-badge\">" ++
    (biz.industry.toUpper) ++
    "</div>\n<h1>" ++
    (biz.tagline) ++
    "</h1>\n<p class=\"hero-sub\">" ++
    (biz.name) ++
    " is the " ++
    (biz.desc) ++
    " that helps teams work smarter and ship faster.</p>\n<div class=\"hero-btns\"><a class=\"btn-primary\" href=\"#\">Get Started →</a><a class=\"btn-ghost\" href=\"#\">See Pricing</a></div></div>\n<div class=\"hero-visual\" style=\"aspect-ratio:4/3;border-radius:16px;background:linear-gradient(135deg," ++
    (surface) ++
    "," ++
    (bg) ++
    ");border:1px solid " ++
    (border) ++
    ";display:flex;align-items:center;justify-content:center;font-size:48px\">🚀</div>"
  else
    "<div class=\"hero-badge\">✨ NOW IN BETA</div>\n<h1>" ++
    (biz.tagline) ++
    "</h1>\n<p class=\"hero-sub\">The " ++
    (biz.desc) ++
    " designed for teams that refuse to settle. " ++
    (biz.name) ++
    " brings everything together in one powerful platform.</p>\n<div class=\"hero-btns\"><a class=\"btn-primary\" href=\"#\">Start Building →</a><a class=\"btn-ghost\" href=\"#\">View Demo</a></div>"

/-- The testimonials section of v4-batch1-pages.py `make_page`
(lines 204-210). -/
def v4TestimonialsHtml (biz : V4Business) : String :=
  "<section class=\"section\" id=\"testimonials\"><div class=\"container\"><h2 class=\"section-title\">Loved by teams worldwide</h2><p class=\"section-sub\">See what our customers have to say about " ++
  (biz.name) ++
  ".</p><div class=\"testimonials-grid\">\n<div class=\"testimonial\"><p class=\"tq\">\"" ++
  (biz.name) ++
  " transformed how our team works. We shipped 3x faster in the first month.\"</p><div class=\"tauthor\"><div class=\"tavatar\">SC</div><div><div class=\"tname\">Sarah Chen</div><div class=\"trole\">CTO, TechFlow</div></div></div></div>\n<div class=\"testimonial\"><p class=\"tq\">\"The best tool we\x27ve adopted this year. Period. Our entire team is hooked.\"</p><div class=\"tauthor\"><div class=\"tavatar\">JW</div><div><div class=\"tname\">James Wilson</div><div class=\"trole\">VP Engineering, ScaleUp</div></div></div></div>\n<div class=\"testimonial\"><p class=\"tq\">\"We evaluated 12 alternatives before choosing " ++
  (biz.name) ++
  ". No regrets whatsoever.\"</p><div class=\"tauthor\"><div class=\"tavatar\">PP</div><div><div class=\"tname\">Priya Patel</div><div class=\"trole\">Founder, BuildFast</div></div></div></div>\n</div></div></section>"

/-- The FAQ section of v4-batch1-pages.py `make_page` (lines 212-219). -/
def v4FaqHtml (biz : V4Business) : String :=
  "<section class=\"section\" id=\"faq\"><div class=\"container\"><h2 class=\"section-title\">Frequently asked questions</h2><p class=\"section-sub\">Everything you need to know about " ++
  (biz.name) ++
  ".</p><div class=\"faq-list\">\n<div class=\"faq-item\"><button class=\"faq-q\" onclick=\"toggleFaq(this)\">Is there a free plan? <span class=\"faq-chevron\">▼</span></button><div class=\"faq-a\"><p>Yes! We offer a generous free tier with up to 3 projects and 1GB storage. No credit card required.</p></div></div>\n<div class=\"faq-item\"><button class=\"faq-q\" onclick=\"toggleFaq(this)\">Can I cancel anytime? <span class=\"faq-chevron\">▼</span></button><div class=\"faq-a\"><p>Absolutely. No contracts, no cancellation fees. Downgrade or cancel anytime from account settings.</p></div></div>\n<div class=\"faq-item\"><button class=\"faq-q\" onclick=\"toggleFaq(this)\">Is my data secure? <span class=\"faq-chevron\">▼</span></button><div class=\"faq-a\"><p>Security is our top priority. AES-256 encryption, SOC 2 Type II certified, GDPR compliant, with hourly backups.</p></div></div>\n<div class=\"faq-item\"><button class=\"faq-q\" onclick=\"toggleFaq(this)\">Do you offer startup discounts? <span class=\"faq-chevron\">▼</span></button><div class=\"faq-a\"><p>Yes! Qualifying startups get 50% off for the first year. Apply through our startup program page.</p></div></div>\n</div></div></section>"

/-- `make_page` of v4-batch1-pages.py (lines 157-299).  The font tuple
is `(f1, f2, style_desc)`; the light-theme `glow` is computed from the
primary color's hex channels. -/
def makePageV4 (biz : V4Business) (fonts : String × String × String) (pal : V4Palette)
    (is_dark : Bool) (has_pricing has_stats has_testimonials has_faq : Bool)
    (hero_style card_style : String) : String :=
  let f1 := fonts.1
  let f2 := fonts.2.1
  let font_url := google_font_url f1 f2
  let bg := pal.bg
  let surface := pal.surface
  let text := pal.text
  let muted := pal.muted
  let primary := pal.primary
  let primary_hover := pal.primary_hover
  let glow :=
    if is_dark then pal.glow
    else "rgba(" ++ toString (hexVal ((primary.toList.drop 1).take 2)) ++ "," ++
      toString (hexVal ((primary.toList.drop 3).take 2)) ++ "," ++
      toString (hexVal ((primary.toList.drop 5).take 2)) ++ ",0.12)"
  let border := if is_dark then "rgba(255,255,255,0.06)" else pal.border
  let hero_css :=
    if hero_style == "centered" then "text-align:center; max-width:800px; margin:0 auto;"
    else if hero_style == "left_aligned" then "max-width:640px;"
    else if hero_style == "split" then "display:grid;grid-template-columns:1fr 1fr;gap:48px;align-items:center;"
    else "text-align:center; max-width:800px; margin:0 auto; position:relative; z-index:1;"
  let hero_html := v4HeroHtml biz hero_style surface bg border
  let features_html := v4MakeFeaturesHtml biz.features card_style pal is_dark
  let stats_html := if has_stats then v4MakeStatsHtml biz.stats else ""
  let pricing_html := if has_pricing then v4MakePricingHtml biz.name pal is_dark else ""
  let testimonials_html := if has_testimonials then v4TestimonialsHtml biz else ""
  let faq_html := if has_faq then v4FaqHtml biz else ""
  "<!DOCTYPE html><html lang=\"en\"><head><meta charset=\"UTF-8\"><meta name=\"viewport\" content=\"width=device-width, initial-scale=1.0\"><title>" ++
  (biz.name) ++
  " — " ++
  (biz.tagline) ++
  "</title><link href=\"" ++
  (font_url) ++
  "\" rel=\"stylesheet\"><style>\n:root\x7b--bg:" ++
  (bg) ++
  ";--surface:" ++
  (surface) ++
  ";--text:" ++
  (text) ++
  ";--muted:" ++
  (muted) ++
  ";--primary:" ++
  (primary) ++
  ";--primary-hover:" ++
  (primary_hover) ++
  ";--glow:" ++
  (glow) ++
  ";--border:" ++
  (border) ++
  ";--font-display:\x27" ++
  (f1) ++
  "\x27,sans-serif;--font-body:\x27" ++
  (f2) ++
  "\x27,sans-serif;--radius:12px\x7d\n*\x7bmargin:0;padding:0;box-sizing:border-box\x7dbody\x7bfont-family:var(--font-body);background:var(--bg);color:var(--text);line-height:1.6\x7d\n.container\x7bmax-width:1120px;margin:0 auto;padding:0 24px\x7d\nnav\x7bpadding:14px 0;border-bottom:1px solid var(--border);position:sticky;top:0;z-index:50;background:" ++
  (if is_dark then "rgba(10,10,15,0.8)" else "rgba(255,255,255,0.8)") ++
  ";backdrop-filter:blur(20px);-webkit-backdrop-filter:blur(20px)\x7d\nnav .container\x7bdisplay:flex;align-items:center;justify-content:space-between\x7d\n.logo\x7bfont-family:var(--font-display);font-size:20px;font-weight:700;background:linear-gradient(135deg,var(--primary),var(--primary-hover));-webkit-background-clip:text;-webkit-text-fill-color:transparent\x7d\n.nav-links\x7bdisplay:flex;align-items:center;gap:28px\x7d\n.nav-links a\x7bfont-size:14px;color:var(--muted);text-decoration:none;transition:color 0.2s\x7d.nav-links a:hover\x7bcolor:var(--text)\x7d\n.btn-primary\x7bdisplay:inline-flex;align-items:center;padding:10px 24px;background:var(--primary);color:#fff;border:none;border-radius:8px;font-size:14px;font-weight:600;cursor:pointer;text-decoration:none;font-family:var(--font-body);transition:all 0.2s\x7d\n.btn-primary:hover\x7bbackground:var(--primary-hover);transform:translateY(-1px);box-shadow:0 4px 20px var(--glow)\x7d\n.btn-ghost\x7bdisplay:inline-flex;align-items:center;padding:10px 24px;background:transparent;color:var(--text);border:1px solid var(--border);border-radius:8px;font-size:14px;font-weight:500;cursor:pointer;text-decoration:none;font-family:var(--font-body);transition:all 0.2s\x7d\n.btn-ghost:hover\x7bborder-color:var(--muted);background:" ++
  (if is_dark then "rgba(255,255,255,0.03)" else "rgba(0,0,0,0.03)") ++
  "\x7d\n.btn-outline\x7bdisplay:inline-flex;align-items:center;justify-content:center;width:100%;padding:10px 24px;background:transparent;color:var(--text);border:1px solid var(--border);border-radius:8px;font-size:14px;font-weight:600;cursor:pointer;text-decoration:none;font-family:var(--font-body);transition:all 0.2s\x7d\n.btn-outline:hover\x7bborder-color:var(--primary);color:var(--primary)\x7d\n.hero\x7bpadding:80px 0 60px;" ++
  (if hero_style == "gradient_bg" then "background:radial-gradient(ellipse at 50% 0%," ++ glow ++ ",transparent 60%)" else "") ++
  "\x7d\n.hero .container\x7b" ++
  (hero_css) ++
  "\x7d\n.hero-badge\x7bdisplay:inline-block;padding:6px 16px;background:" ++
  (if is_dark then "rgba(255,255,255,0.05)" else "rgba(0,0,0,0.04)") ++
  ";border:1px solid var(--border);border-radius:100px;font-size:12px;font-weight:600;letter-spacing:1px;color:var(--primary);margin-bottom:20px\x7d\n.hero h1\x7bfont-family:var(--font-display);font-size:clamp(36px,5vw,60px);font-weight:700;line-height:1.1;letter-spacing:-0.03em;margin-bottom:16px\x7d\n.hero-sub\x7bfont-size:18px;color:var(--muted);max-width:560px;margin-bottom:32px;line-height:1.7\x7d\n.hero-btns\x7bdisplay:flex;gap:12px;flex-wrap:wrap\x7d\n.section\x7bpadding:80px 0\x7d\n.section-title\x7bfont-family:var(--font-display);font-size:32px;font-weight:700;text-align:center;margin-bottom:8px;letter-spacing:-0.02em\x7d\n.section-sub\x7btext-align:center;color:var(--muted);font-size:16px;margin-bottom:48px;max-width:560px;margin-left:auto;margin-right:auto\x7d\n.stats-row\x7bdisplay:grid;grid-template-columns:repeat(4,1fr);gap:20px;margin-bottom:60px\x7d\n.stat\x7btext-align:center;padding:24px\x7d\n.stat-val\x7bfont-family:var(--font-display);font-size:36px;font-weight:700;color:var(--primary);letter-spacing:-0.02em\x7d\n.stat-label\x7bfont-size:14px;color:var(--muted);margin-top:4px\x7d\n.features-grid\x7bdisplay:grid;grid-template-columns:repeat(3,1fr);gap:16px\x7d\n.fcard\x7bpadding:28px;border-radius:var(--radius);transition:all 0.3s;cursor:default\x7d\n.fcard:hover\x7btransform:translateY(-4px);box-shadow:0 12px 24px " ++
  (if is_dark then "rgba(0,0,0,0.3)" else "rgba(0,0,0,0.08)") ++
  "\x7d\n.fcard .ficon\x7bfont-size:28px;margin-bottom:14px\x7d\n.fcard h3\x7bfont-family:var(--font-display);font-size:17px;font-weight:600;margin-bottom:6px\x7d\n.fcard p\x7bfont-size:14px;color:var(--muted);line-height:1.6\x7d\n.pricing-grid\x7bdisplay:grid;grid-template-columns:repeat(3,1fr);gap:16px;max-width:960px;margin:0 auto\x7d\n.price-card\x7bpadding:32px;background:var(--surface);border:1px solid var(--border);border-radius:var(--radius);position:relative\x7d\n.price-card.featured\x7bborder-color:var(--primary);box-shadow:0 0 30px var(--glow)\x7d\n.price-badge\x7bposition:absolute;top:-12px;left:50%;transform:translateX(-50%);padding:4px 16px;background:var(--primary);color:#fff;font-size:12px;font-weight:600;border-radius:100px\x7d\n.price-name\x7bfont-family:var(--font-display);font-size:18px;font-weight:600;margin-bottom:8px\x7d\n.price-amount\x7bfont-family:var(--font-display);font-size:42px;font-weight:700;margin-bottom:8px\x7d\n.currency\x7bfont-size:24px;opacity:0.6\x7d.period\x7bfont-size:16px;color:var(--muted);font-weight:400\x7d\n.price-desc\x7bfont-size:14px;color:var(--muted);margin-bottom:20px\x7d\n.price-features\x7blist-style:none;margin-bottom:24px\x7d.price-features li\x7bpadding:6px 0;font-size:14px;color:var(--muted)\x7d\n.price-features li::before\x7bcontent:\x27✓ \x27;color:var(--primary);font-weight:600\x7d\n.testimonials-grid\x7bdisplay:grid;grid-template-columns:repeat(3,1fr);gap:16px\x7d\n.testimonial\x7bpadding:24px;background:var(--surface);border:1px solid var(--border);border-radius:var(--radius)\x7d\n.tq\x7bfont-size:15px;color:var(--text);line-height:1.7;margin-bottom:16px;font-style:italic\x7d\n.tauthor\x7bdisplay:flex;align-items:center;gap:10px\x7d\n.tavatar\x7bwidth:36px;height:36px;border-radius:50%;background:" ++
  (if is_dark then "rgba(255,255,255,0.06)" else "rgba(0,0,0,0.04)") ++
  ";display:flex;align-items:center;justify-content:center;font-size:12px;font-weight:600;color:var(--primary)\x7d\n.tname\x7bfont-size:14px;font-weight:600\x7d.trole\x7bfont-size:12px;color:var(--muted)\x7d\n.faq-list\x7bmax-width:680px;margin:0 auto;display:flex;flex-direction:column;gap:8px\x7d\n.faq-item\x7bbackground:var(--surface);border:1px solid var(--border);border-radius:10px;overflow:hidden\x7d\n.faq-q\x7bwidth:100%;padding:16px 20px;display:flex;justify-content:space-between;align-items:center;background:none;border:none;color:var(--text);font-size:15px;font-weight:500;cursor:pointer;font-family:var(--font-body);text-align:left\x7d\n.faq-chevron\x7bfont-size:12px;color:var(--muted);transition:transform 0.3s\x7d.faq-item.open .faq-chevron\x7btransform:rotate(180deg)\x7d\n.faq-a\x7bmax-height:0;overflow:hidden;transition:max-height 0.3s\x7d.faq-item.open .faq-a\x7bmax-height:200px\x7d\n.faq-a p\x7bpadding:0 20px 16px;font-size:14px;color:var(--muted);line-height:1.7\x7d\n.cta-section\x7bpadding:80px 0;text-align:center;background:radial-gradient(ellipse at 50% 50%,var(--glow),transparent 60%)\x7d\n.cta-section h2\x7bfont-family:var(--font-display);font-size:36px;font-weight:700;margin-bottom:8px;letter-spacing:-0.02em\x7d\n.cta-section p\x7bcolor:var(--muted);margin-bottom:28px\x7d\nfooter\x7bpadding:24px 0;border-top:1px solid var(--border);text-align:center;font-size:13px;color:var(--muted)\x7d\n.fade-in\x7bopacity:0;transform:translateY(20px);transition:opacity 0.6s,transform 0.6s\x7d.fade-in.visible\x7bopacity:1;transform:translateY(0)\x7d\n@media(max-width:768px)\x7b.hero .container\x7b" ++
  (if hero_style == "split" then "grid-template-columns:1fr!important;" else "") ++
  "\x7d.stats-row\x7bgrid-template-columns:repeat(2,1fr)\x7d.features-grid,.pricing-grid,.testimonials-grid\x7bgrid-template-columns:1fr\x7d.nav-links span\x7bdisplay:none\x7d.hero h1\x7bfont-size:32px\x7d.section-title\x7bfont-size:24px\x7d\x7d\n@media(prefers-reduced-motion:reduce)\x7b*\x7banimation-duration:0.01ms!important;transition-duration:0.01ms!important\x7d\x7d\n</style></head><body>\n<nav><div class=\"container\"><div class=\"logo\">" ++
  (biz.name) ++
  "</div><div class=\"nav-links\"><a href=\"#features\">Features</a>" ++
  (if has_pricing then "<a href=\"#pricing\">Pricing</a>" else "") ++
  "<span><a href=\"#\" class=\"btn-ghost\" style=\"padding:7px 16px;font-size:13px\">Sign In</a></span><a href=\"#\" class=\"btn-primary\" style=\"padding:7px 16px;font-size:13px\">Get Started</a></div></div></nav>\n<section class=\"hero\"><div class=\"container\">" ++
  (hero_html) ++
  "</div></section>\n" ++
  (if has_stats then "<section class=\"section\"><div class=\"container\"><div class=\"stats-row fade-in\">" ++ stats_html ++ "</div></div></section>" else "") ++
  "\n<section class=\"section\" id=\"features\"><div class=\"container\"><h2 class=\"section-title\">Everything you need</h2><p class=\"section-sub\">Powerful features that grow with your team. No compromises.</p><div class=\"features-grid fade-in\">" ++
  (features_html) ++
  "</div></div></section>\n" ++
  (testimonials_html) ++
  "\n" ++
  (if has_pricing then "<section class=\"section\" id=\"pricing\"><div class=\"container\"><h2 class=\"section-title\">Simple, transparent pricing</h2><p class=\"section-sub\">Start free. Upgrade when ready. No hidden fees.</p>" ++ pricing_html ++ "</div></section>" else "") ++
  "\n" ++
  (faq_html) ++
  "\n<section class=\"cta-section\"><div class=\"container\"><h2>Ready to get started?</h2><p>Join thousands of teams already using " ++
  (biz.name) ++
  ". No credit card required.</p><a href=\"#\" class=\"btn-primary\">Start Free Trial →</a></div></section>\n<footer><div class=\"container\">© 2026 " ++
  (biz.name) ++
  ", Inc. All rights reserved.</div></footer>\n<script>\nconst obs=new IntersectionObserver(e=>\x7be.forEach(el=>\x7bif(el.isIntersecting)\x7bel.target.classList.add(\x27visible\x27);obs.unobserve(el.target)\x7d\x7d)\x7d,\x7bthreshold:0.1\x7d);document.querySelectorAll(\x27.fade-in\x27).forEach(el=>obs.observe(el));\n" ++
  (if has_stats then "function animateCounter(el)\x7bconst t=parseFloat(el.dataset.target),s=el.dataset.suffix||\"\",d=parseInt(el.dataset.decimal)||0,dur=2000,st=performance.now();function u(now)\x7bconst p=Math.min((now-st)/dur,1),e=1-Math.pow(1-p,3);el.textContent=(d>0?((t*e).toFixed(d)):(Math.floor(t*e).toLocaleString()))+s;if(p<1)requestAnimationFrame(u)\x7drequestAnimationFrame(u)\x7dconst cObs=new IntersectionObserver(e=>\x7be.forEach(el=>\x7bif(el.isIntersecting)\x7banimateCounter(el.target);cObs.unobserve(el.target)\x7d\x7d)\x7d,\x7bthreshold:0.5\x7d);document.querySelectorAll(\"[data-target]\").forEach(c=>cObs.observe(c));" else "") ++
  "\n" ++
  (if has_faq then "function toggleFaq(btn)\x7bconst item=btn.parentElement,body=item.querySelector(\".faq-a\"),content=body.querySelector(\"p\"),wasOpen=item.classList.contains(\"open\");document.querySelectorAll(\".faq-item.open\").forEach(i=>\x7bi.classList.remove(\"open\");i.querySelector(\".faq-a\").style.maxHeight=\"0\"\x7d);if(!wasOpen)\x7bitem.classList.add(\"open\");body.style.maxHeight=content.scrollHeight+\"px\"\x7d\x7d" else "") ++
  "\n</script></body></html>"


/-- The records of the input lines that parse and whose dedup key
computation succeeds (the candidates the v3 import loop considers). -/
def v3ImportCandidates (lines : List (Option JVal)) : List JVal :=
  lines.filterMap fun l => l.bind fun e => (v3ImportKey e).toOption.map fun _ => e

/-- Total version of the v3 import key on candidate records. -/
def v3KeyOf (e : JVal) : String :=
  ((v3ImportKey e).toOption).getD ""

/-- The `"tech-modern"` entry of `FONT_PAIRINGS` (gen-v2-pages.py 47-52). -/
def techModernFonts : FontPairing :=
  { display := "Space Grotesk", body := "DM Sans"
    fontImport := "Space+Grotesk:wght@400;500;600;700&family=DM+Sans:wght@400;500"
    display_stack := "\x27Space Grotesk\x27, sans-serif"
    body_stack := "\x27DM Sans\x27, sans-serif"
    vibe := "geometric, technical, startup" }

/-- The `"indigo"` entry of `DARK_PALETTES` (gen-v2-pages.py 98-104). -/
def indigoPaletteV2 : V2Palette :=
  { bg := "#0a0a0f", surface := "#12121a", surface_hover := "#1a1a25"
    text := "#f0f0f5", muted := "#71717a", secondary := "#a1a1aa"
    primary := "#6366f1", primary_hover := "#818cf8"
    primary_subtle := "rgba(99,102,241,0.1)", primary_glow := "rgba(99,102,241,0.3)"
    border := "rgba(255,255,255,0.06)", border_hover := "rgba(255,255,255,0.12)" }

/-- The `Nexus` entry of `BUSINESSES` (gen-v2-pages.py 199). -/
def nexusBusinessV2 : V2Business :=
  { name := "Nexus", btype := "Project Management SaaS"
    tagline := "Ship Projects 10x Faster"
    desc := "The project management platform that adapts to how your team actually works."
    features := [
      ⟨"📋", "Smart Boards", "Kanban, timeline, and table views that auto-organize."⟩,
      ⟨"⚡", "AI Workflows", "Automate tasks with natural language rules."⟩,
      ⟨"📊", "Live Dashboards", "Real-time metrics on velocity and burndown."⟩,
      ⟨"🔗", "50+ Integrations", "GitHub, Slack, Figma — two-way sync."⟩,
      ⟨"🛡️", "Enterprise Security", "SOC 2, SSO, RBAC, and audit logs."⟩,
      ⟨"🌐", "Global Collab", "Real-time editing with presence and timezone awareness."⟩] }

/-- The `"indigo"` entry of `DARK_PALETTES` (v4-batch1-pages.py 39). -/
def indigoPaletteV4 : V4Palette :=
  { name := "indigo", bg := "#0a0a0f", surface := "#12121a", text := "#f0f0f5"
    muted := "#71717a", primary := "#6366f1", primary_hover := "#818cf8"
    glow := "rgba(99,102,241,0.15)", border := "" }

/-- The first entry of `FONTS` (v4-batch1-pages.py 24). -/
def spaceGroteskFontsV4 : String × String × String :=
  ("Space Grotesk", "DM Sans", "geometric-technical")

/-- The `Nexus` entry of `BUSINESSES` (v4-batch1-pages.py 62). -/
def nexusBusinessV4 : V4Business :=
  { name := "Nexus", tagline := "Ship products 10x faster"
    desc := "project management platform", industry := "saas"
    features := ["Task Boards", "Time Tracking", "Team Chat", "Sprint Planning",
      "Roadmaps", "Integrations"]
    stats := [("12,847", "Active Teams"), ("99.9%", "Uptime SLA"),
      ("152", "Countries"), ("4.9/5", "Avg Rating")] }

/-! ## Theorems -/

/-! ### Deduplication (shared machinery) -/

/-- The accumulator-threading pass agrees with the plain recursion. -/
theorem dedupPass_eq_dedupRec {α : Type} (key : α → String) :
    ∀ (l : List α) (seen : List String) (out : List α),
      (dedupPass key l seen out).2 = out ++ dedupRec key seen l := by
  intro l
  induction l with
  | nil => intro seen out; simp [dedupPass, dedupRec]
  | cons e rest ih =>
    intro seen out
    by_cases h : key e ∈ seen
    · simp [dedupPass, dedupRec, h, ih]
    · simp [dedupPass, dedupRec, h, ih]

/-- Passing a concatenation equals two passes sharing the state. -/
theorem dedupPass_append {α : Type} (key : α → String) :
    ∀ (a b : List α) (seen : List String) (out : List α),
      dedupPass key (a ++ b) seen out =
        dedupPass key b (dedupPass key a seen out).1 (dedupPass key a seen out).2 := by
  intro a
  induction a with
  | nil => intro b seen out; simp [dedupPass]
  | cons e rest ih =>
    intro b seen out
    by_cases h : key e ∈ seen
    · simp [dedupPass, h, ih]
    · simp [dedupPass, h, ih]

/-- Membership in the dedup result: exactly the records that occur at a
position whose earlier records all have different keys (and whose key is
not in the initial `seen` set). -/
theorem mem_dedupRec_iff {α : Type} (key : α → String) :
    ∀ (l : List α) (seen : List String) (r : α),
      r ∈ dedupRec key seen l ↔
        key r ∉ seen ∧
          ∃ pre post, l = pre ++ r :: post ∧ ∀ x ∈ pre, key x ≠ key r := by
  intro l
  induction l with
  | nil =>
    intro seen r
    simp [dedupRec]
  | cons e rest ih =>
    intro seen r
    by_cases h : key e ∈ seen
    · rw [dedupRec, if_pos h, ih]
      constructor
      · rintro ⟨hk, pre, post, heq, hpre⟩
        refine ⟨hk, e :: pre, post, by simp [heq], ?_⟩
        intro x hx
        rcases List.mem_cons.mp hx with rfl | hx
        · intro hc
          exact hk (hc ▸ h)
        · exact hpre x hx
      · rintro ⟨hk, pre, post, heq, hpre⟩
        cases pre with
        | nil =>
          simp only [List.nil_append, List.cons.injEq] at heq
          exact absurd (heq.1 ▸ h) hk
        | cons p ps =>
          simp only [List.cons_append, List.cons.injEq] at heq
          exact ⟨hk, ps, post, heq.2, fun x hx => hpre x (List.mem_cons_of_mem _ hx)⟩
    · rw [dedupRec, if_neg h]
      simp only [List.mem_cons]
      rw [ih]
      constructor
      · rintro (rfl | ⟨hk, pre, post, heq, hpre⟩)
        · exact ⟨h, [], rest, rfl, by simp⟩
        · simp only [List.mem_cons, not_or] at hk
          refine ⟨hk.2, e :: pre, post, by simp [heq], ?_⟩
          intro x hx
          rcases List.mem_cons.mp hx with rfl | hx
          · exact fun hc => hk.1 hc.symm
          · exact hpre x hx
      · rintro ⟨hk, pre, post, heq, hpre⟩
        cases pre with
        | nil =>
          simp only [List.nil_append, List.cons.injEq] at heq
          exact Or.inl heq.1.symm
        | cons p ps =>
          simp only [List.cons_append, List.cons.injEq] at heq
          obtain ⟨rfl, hrest⟩ := heq
          refine Or.inr ⟨?_, ps, post, hrest, fun x hx => hpre x (List.mem_cons_of_mem _ hx)⟩
          simp only [List.mem_cons, not_or]
          exact ⟨fun hc => hpre e (List.mem_cons_self e ps) hc.symm, hk⟩

/-- The keys of the dedup result are pairwise distinct and disjoint from
the initial `seen` set. -/
theorem dedupRec_keys_nodup {α : Type} (key : α → String) :
    ∀ (l : List α) (seen : List String),
      ((dedupRec key seen l).map key).Nodup ∧
        ∀ k ∈ (dedupRec key seen l).map key, k ∉ seen := by
  intro l
  induction l with
  | nil => intro seen; simp [dedupRec]
  | cons e rest ih =>
    intro seen
    by_cases h : key e ∈ seen
    · simpa [dedupRec, h] using ih seen
    · have ih' := ih (key e :: seen)
      simp only [dedupRec, if_neg h, List.map_cons, List.nodup_cons]
      refine ⟨⟨?_, ih'.1⟩, ?_⟩
      · intro hmem
        exact (ih'.2 _ hmem) (List.mem_cons_self _ _)
      · intro k hk
        rcases List.mem_cons.mp hk with rfl | hk
        · exact h
        · intro hks
          exact (ih'.2 k hk) (List.mem_cons_of_mem _ hks)

/-- `dedupBy` in terms of the plain recursion. -/
theorem dedupBy_eq_dedupRec {α : Type} (key : α → String) (recs : List α) :
    dedupBy key recs = dedupRec key [] recs := by
  simp [dedupBy, dedupPass_eq_dedupRec]

/-- Membership characterization of a fresh dedup pass. -/
theorem mem_dedupBy_iff {α : Type} (key : α → String) (recs : List α) (r : α) :
    r ∈ dedupBy key recs ↔
      ∃ pre post, recs = pre ++ r :: post ∧ ∀ x ∈ pre, key x ≠ key r := by
  rw [dedupBy_eq_dedupRec, mem_dedupRec_iff]
  simp

/-- Keys are unique in a fresh dedup pass. -/
theorem dedupBy_keys_nodup {α : Type} (key : α → String) (recs : List α) :
    ((dedupBy key recs).map key).Nodup := by
  rw [dedupBy_eq_dedupRec]
  exact (dedupRec_keys_nodup key recs []).1

/-- The v2 two-loop merge is one dedup pass over the concatenation. -/
theorem v2CombinedOutput_eq_dedupBy (v2All v1Examples : List TrainingRecord) :
    v2CombinedOutput v2All v1Examples = dedupBy (recKey 100) (v2All ++ v1Examples) := by
  simp [v2CombinedOutput, dedupBy, dedupPass_append]

/-- The v3 `ex` fold is a dedup pass keyed on the first 120 characters of
the prompt, over the records it would build. -/
theorem v3ExFold_eq_dedupPass (prs : List (String × String)) :
    ∀ (seen : List String) (all : List TrainingRecord),
      v3ExFold prs seen all =
        dedupPass (recKey 120) (prs.map fun pr => v3ExRecord pr.1 pr.2) seen all := by
  induction prs with
  | nil => intro seen all; simp [v3ExFold, dedupPass]
  | cons pr rest ih =>
    intro seen all
    have hkey : recKey 120 (v3ExRecord pr.1 pr.2) = pr.1.take 120 := rfl
    by_cases h : pr.1.take 120 ∈ seen
    · simp [v3ExFold, v3Ex, dedupPass, hkey, h, ih]
    · simp [v3ExFold, v3Ex, dedupPass, hkey, h, ih]

/-- C2: In the merged output of each generator — `final` in
generate-training-data.py, `combined` in gen-v2-pages.py, `ALL` as built
by `ex` in gen-v3-master.py — a record appears exactly when it occupies a
position all of whose earlier records have a different fixed-length
user-message key (first 100 characters in v1/v2, first 120 in v3).
Hence of any two records agreeing on the key, only the one occurring
first in processing order appears, every later one is dropped, and the
output carries pairwise distinct keys. -/
theorem dedup_first_occurrence_wins :
    (∀ (hand gen : List TrainingRecord) (r : TrainingRecord),
       r ∈ v1FinalOutput hand gen ↔
         ∃ pre post, hand ++ gen = pre ++ r :: post ∧
           ∀ x ∈ pre, recKey 100 x ≠ recKey 100 r) ∧
    (∀ hand gen, ((v1FinalOutput hand gen).map (recKey 100)).Nodup) ∧
    (∀ (v2All v1E : List TrainingRecord) (r : TrainingRecord),
       r ∈ v2CombinedOutput v2All v1E ↔
         ∃ pre post, v2All ++ v1E = pre ++ r :: post ∧
           ∀ x ∈ pre, recKey 100 x ≠ recKey 100 r) ∧
    (∀ v2All v1E, ((v2CombinedOutput v2All v1E).map (recKey 100)).Nodup) ∧
    (∀ (prs : List (String × String)) (r : TrainingRecord),
       r ∈ (v3ExFold prs [] []).2 ↔
         ∃ pre post, prs.map (fun pr => v3ExRecord pr.1 pr.2) = pre ++ r :: post ∧
           ∀ x ∈ pre, recKey 120 x ≠ recKey 120 r) ∧
    (∀ prs, ((v3ExFold prs [] []).2.map (recKey 120)).Nodup) := by
  refine ⟨?_, ?_, ?_, ?_, ?_, ?_⟩
  · intro hand gen r
    exact mem_dedupBy_iff _ _ _
  · intro hand gen
    exact dedupBy_keys_nodup _ _
  · intro a b r
    rw [v2CombinedOutput_eq_dedupBy]
    exact mem_dedupBy_iff _ _ _
  · intro a b
    rw [v2CombinedOutput_eq_dedupBy]
    exact dedupBy_keys_nodup _ _
  · intro prs r
    rw [v3ExFold_eq_dedupPass]
    exact mem_dedupBy_iff _ _ _
  · intro prs
    rw [v3ExFold_eq_dedupPass]
    exact dedupBy_keys_nodup _ _

/-- Witness for C2 at a concrete input: of two records sharing the
100-character key, the first is in the v1 merged output. -/
theorem dedup_first_occurrence_wins_witness :
    exV1 "hello" "world" ∈ v1FinalOutput [] [exV1 "hello" "world", exV1 "hello" "there"] :=
  (dedup_first_occurrence_wins.1 [] [exV1 "hello" "world", exV1 "hello" "there"]
      (exV1 "hello" "world")).mpr
    ⟨[], [exV1 "hello" "there"], rfl, by simp⟩

/-- C3: every record the `ex` helpers append has exactly three messages
in system/user/assistant order, each with non-empty role and (for
non-empty prompt and response arguments, which every call site supplies)
non-empty content; the v3 `ex` only ever appends such a record. -/
theorem ex_record_shape (u a : String) (hu : u ≠ "") (ha : a ≠ "") :
    (∀ r ∈ [exV1 u a, exV2 u a, v3ExRecord u a],
       r.messages.length = 3 ∧
       r.messages.map Message.role = ["system", "user", "assistant"] ∧
       ∀ m ∈ r.messages, m.role ≠ "" ∧ m.content ≠ "") ∧
    (∀ seen all r, r ∈ (v3Ex seen all u a).1.2 → r ∈ all ∨ r = v3ExRecord u a) := by
  have hs1 : SYS_V1 ≠ "" := by decide
  have hs2 : SYS_V2 ≠ "" := by decide
  have hs3 : SYS_V3 ≠ "" := by decide
  constructor
  · intro r hr
    rcases List.mem_cons.mp hr with rfl | hr
    · refine ⟨rfl, rfl, ?_⟩
      intro m hm
      rcases List.mem_cons.mp hm with rfl | hm
      · exact ⟨by decide, hs1⟩
      rcases List.mem_cons.mp hm with rfl | hm
      · exact ⟨by simp, hu⟩
      rcases List.mem_cons.mp hm with rfl | hm
      · exact ⟨by simp, ha⟩
      · simp at hm
    rcases List.mem_cons.mp hr with rfl | hr
    · refine ⟨rfl, rfl, ?_⟩
      intro m hm
      rcases List.mem_cons.mp hm with rfl | hm
      · exact ⟨by decide, hs2⟩
      rcases List.mem_cons.mp hm with rfl | hm
      · exact ⟨by simp, hu⟩
      rcases List.mem_cons.mp hm with rfl | hm
      · exact ⟨by simp, ha⟩
      · simp at hm
    rcases List.mem_cons.mp hr with rfl | hr
    · refine ⟨rfl, rfl, ?_⟩
      intro m hm
      rcases List.mem_cons.mp hm with rfl | hm
      · exact ⟨by decide, hs3⟩
      rcases List.mem_cons.mp hm with rfl | hm
      · exact ⟨by simp, hu⟩
      rcases List.mem_cons.mp hm with rfl | hm
      · exact ⟨by simp, ha⟩
      · simp at hm
    · simp at hr
  · intro seen all r hr
    by_cases h : u.take 120 ∈ seen
    · simp only [v3Ex, if_pos h] at hr
      exact Or.inl hr
    · simp only [v3Ex, if_neg h] at hr
      rcases List.mem_append.mp hr with hr | hr
      · exact Or.inl hr
      · simp at hr
        exact Or.inr hr

/-- Witness for C3 at a concrete input. -/
theorem ex_record_shape_witness :
    ("What font pairing feels elegant?" : String) ≠ "" ∧
    ∀ r ∈ [exV1 "What font pairing feels elegant?" "Use a serif display.",
           exV2 "What font pairing feels elegant?" "Use a serif display.",
           v3ExRecord "What font pairing feels elegant?" "Use a serif display."],
      r.messages.length = 3 ∧
      r.messages.map Message.role = ["system", "user", "assistant"] ∧
      ∀ m ∈ r.messages, m.role ≠ "" ∧ m.content ≠ "" :=
  ⟨by decide,
   (ex_record_shape "What font pairing feels elegant?" "Use a serif display."
      (by decide) (by decide)).1⟩

/-- C7: the job identifier round-trips through the `.fine-tune-job`
file: `train` writes `job.id` verbatim, and the readers recover it with
`.read().strip()`, so any identifier without surrounding whitespace
(remote job ids have none) reads back exactly. -/
theorem job_id_round_trip (jobId : String) (h : pyStrip jobId = jobId) :
    readJobId (writeJobFile jobId) = jobId := by
  simpa [readJobId, writeJobFile] using h

/-- Witness for C7 at a concrete job id. -/
theorem job_id_round_trip_witness :
    readJobId (writeJobFile "ftjob-abc123XYZ") = "ftjob-abc123XYZ" :=
  job_id_round_trip "ftjob-abc123XYZ" (by decide)

/-- C8: the `watch` polling loop breaks at iteration `i` exactly when the
status retrieved there is `succeeded` or `failed` and every earlier
retrieval produced a non-terminal status; on any other status it sleeps
and retrieves again, never exiting. -/
theorem watch_exits_iff_terminal :
    ∀ (statuses : List String) (i : Nat),
      watchPoll statuses = some i ↔
        (∃ s, statuses[i]? = some s ∧ isTerminalStatus s = true) ∧
          ∀ j, j < i → ∀ s', statuses[j]? = some s' → isTerminalStatus s' = false := by
  intro statuses
  induction statuses with
  | nil =>
    intro i
    simp [watchPoll]
  | cons s rest ih =>
    intro i
    by_cases h : isTerminalStatus s
    · simp only [watchPoll, if_pos h]
      constructor
      · intro hsome
        have hi : i = 0 := by
          cases hsome
          rfl
        subst hi
        exact ⟨⟨s, by simp, h⟩, fun j hj => absurd hj (Nat.not_lt_zero j)⟩
      · rintro ⟨-, hforall⟩
        cases i with
        | zero => rfl
        | succ n =>
          have := hforall 0 (Nat.succ_pos n) s (by simp)
          rw [h] at this
          cases this
    · simp only [watchPoll, if_neg h]
      have hbool : isTerminalStatus s = false := by
        cases hb : isTerminalStatus s
        · rfl
        · exact absurd hb h
      cases i with
      | zero =>
        constructor
        · intro hmap
          rcases Option.map_eq_some'.mp hmap with ⟨n, -, hn⟩
          omega
        · rintro ⟨⟨s', hs', ht⟩, -⟩
          rw [List.getElem?_cons_zero] at hs'
          cases hs'
          rw [ht] at hbool
          cases hbool
      | succ n =>
        constructor
        · intro hmap
          rcases Option.map_eq_some'.mp hmap with ⟨a, ha, hae⟩
          have han : a = n := by omega
          rw [han] at ha
          rcases (ih n).mp ha with ⟨⟨s', hs', ht⟩, hf⟩
          refine ⟨⟨s', by simpa using hs', ht⟩, ?_⟩
          intro j hj s'' hs''
          cases j with
          | zero =>
            rw [List.getElem?_cons_zero] at hs''
            cases hs''
            exact hbool
          | succ m =>
            rw [List.getElem?_cons_succ] at hs''
            exact hf m (by omega) s'' hs''
        · rintro ⟨⟨s', hs', ht⟩, hf⟩
          rw [List.getElem?_cons_succ] at hs'
          have hrest : watchPoll rest = some n := by
            refine (ih n).mpr ⟨⟨s', hs', ht⟩, ?_⟩
            intro j hj s'' hs''
            exact hf (j + 1) (by omega) s'' (by simpa using hs'')
          rw [hrest]
          rfl

/-- Witness for C8: with observations `running, succeeded` the loop
breaks exactly at the second poll. -/
theorem watch_exits_iff_terminal_witness :
    (∃ s, (["running", "succeeded"] : List String)[1]? = some s ∧
       isTerminalStatus s = true) ∧
      ∀ j, j < 1 → ∀ s', (["running", "succeeded"] : List String)[j]? = some s' →
        isTerminalStatus s' = false :=
  (watch_exits_iff_terminal ["running", "succeeded"] 1).mp rfl

/-- Invariant of the inner event loop of `watch`: printed events keep
pairwise-distinct ids, every printed id is in `seen_events`, and
`seen_events` only grows. -/
theorem printNewEvents_invariant :
    ∀ (evs : List FTEvent) (seen : List String) (out : List FTEvent),
      (out.map FTEvent.id).Nodup → (∀ e ∈ out, e.id ∈ seen) →
        ((printNewEvents evs seen out).2.map FTEvent.id).Nodup ∧
        (∀ e ∈ (printNewEvents evs seen out).2, e.id ∈ (printNewEvents evs seen out).1) ∧
        (∀ k ∈ seen, k ∈ (printNewEvents evs seen out).1) := by
  intro evs
  induction evs with
  | nil =>
    intro seen out hn hs
    exact ⟨hn, hs, fun k hk => hk⟩
  | cons e rest ih =>
    intro seen out hn hs
    by_cases h : e.id ∈ seen
    · simp only [printNewEvents, if_pos h]
      exact ih seen out hn hs
    · simp only [printNewEvents, if_neg h]
      have hn' : ((out ++ [e]).map FTEvent.id).Nodup := by
        rw [List.map_append, List.nodup_append]
        refine ⟨hn, by simp, ?_⟩
        intro k hk hk'
        simp only [List.map_cons, List.map_nil, List.mem_singleton] at hk'
        subst hk'
        rcases List.mem_map.mp hk with ⟨x, hx, hxid⟩
        exact h (hxid ▸ hs x hx)
      have hs' : ∀ x ∈ out ++ [e], x.id ∈ e.id :: seen := by
        intro x hx
        rcases List.mem_append.mp hx with hx | hx
        · exact List.mem_cons_of_mem _ (hs x hx)
        · simp only [List.mem_singleton] at hx
          subst hx
          exact List.mem_cons_self _ _
      rcases ih (e.id :: seen) (out ++ [e]) hn' hs' with ⟨h1, h2, h3⟩
      exact ⟨h1, h2, fun k hk => h3 k (List.mem_cons_of_mem _ hk)⟩

/-- The invariant carried over all polling iterations. -/
theorem watchEventLoop_invariant :
    ∀ (lists : List (List FTEvent)) (seen : List String) (out : List FTEvent),
      (out.map FTEvent.id).Nodup → (∀ e ∈ out, e.id ∈ seen) →
        ((watchEventLoop lists seen out).2.map FTEvent.id).Nodup ∧
        ∀ e ∈ (watchEventLoop lists seen out).2, e.id ∈ (watchEventLoop lists seen out).1 := by
  intro lists
  induction lists with
  | nil =>
    intro seen out hn hs
    exact ⟨hn, hs⟩
  | cons evs rest ih =>
    intro seen out hn hs
    rcases printNewEvents_invariant evs.reverse seen out hn hs with ⟨h1, h2, -⟩
    simpa only [watchEventLoop] using ih _ _ h1 h2

/-- C9: across a whole `watch` run, each remote event id is printed at
most once — the printed events carry pairwise-distinct ids — and every
printed id has been added to `seen_events`, so no later polling
iteration prints an id already seen. -/
theorem watch_events_printed_once :
    ∀ (eventLists : List (List FTEvent)),
      ((watchPrinted eventLists).map FTEvent.id).Nodup ∧
        ∀ e ∈ watchPrinted eventLists, e.id ∈ (watchEventLoop eventLists [] []).1 := by
  intro eventLists
  exact watchEventLoop_invariant eventLists [] [] (by simp) (by simp)

/-- The v3 import loop is a dedup pass over the candidate records, and
its error-report channel is empty. -/
theorem v3ImportLoop_eq_dedupPass :
    ∀ (lines : List (Option JVal)) (seen : List String) (all : List JVal),
      v3ImportLoop lines seen all =
        (dedupPass v3KeyOf (v3ImportCandidates lines) seen all, []) := by
  intro lines
  induction lines with
  | nil =>
    intro seen all
    simp [v3ImportLoop, v3ImportCandidates, dedupPass]
  | cons line rest ih =>
    intro seen all
    match line with
    | none =>
      simpa [v3ImportLoop, v3ImportCandidates] using ih seen all
    | some e =>
      rcases hk : v3ImportKey e with err | k
      · simp only [v3ImportLoop, hk]
        have hc : v3ImportCandidates (some e :: rest) = v3ImportCandidates rest := by
          simp [v3ImportCandidates, hk, Except.toOption]
        rw [hc] at *
        exact ih seen all
      · have hkey : v3KeyOf e = k := by
          simp [v3KeyOf, hk, Except.toOption]
        have hc : v3ImportCandidates (some e :: rest) = e :: v3ImportCandidates rest := by
          simp [v3ImportCandidates, hk, Except.toOption]
        by_cases h : k ∈ seen
        · simp only [v3ImportLoop, hk, if_pos h, hc, dedupPass, hkey, h, ite_true]
          exact ih seen all
        · simp only [v3ImportLoop, hk, if_neg h, hc, dedupPass, hkey, h, ite_false]
          exact ih (k :: seen) (all ++ [e])

/-- C10 (amended): in the v1 `hand_crafted` load loop every unparsable
line is silently dropped — the loaded list is exactly the parsable
records in order and nothing is reported; in the v3 import loop every
line that fails to parse or whose key computation raises is silently
dropped with nothing reported, and the surviving records carried into
`ALL` are exactly the first-with-their-key candidates (later records
with an already-seen key are dropped by the dedup, not by an error). -/
theorem merge_drops_malformed_silently :
    (∀ lines, (handCraftedLoad lines).1 = lines.filterMap id ∧
       (handCraftedLoad lines).2 = []) ∧
    (∀ lines, (v3ImportLoop lines [] []).2 = []) ∧
    (∀ lines e, e ∈ (v3ImportLoop lines [] []).1.2 ↔
       ∃ pre post, v3ImportCandidates lines = pre ++ e :: post ∧
         ∀ x ∈ pre, v3KeyOf x ≠ v3KeyOf e) := by
  refine ⟨?_, ?_, ?_⟩
  · intro lines
    induction lines with
    | nil => exact ⟨rfl, rfl⟩
    | cons line rest ih =>
      match line with
      | none => simpa [handCraftedLoad] using ih
      | some e =>
        refine ⟨?_, ?_⟩
        · simpa [handCraftedLoad] using ih.1
        · simpa [handCraftedLoad] using ih.2
  · intro lines
    rw [v3ImportLoop_eq_dedupPass]
  · intro lines e
    rw [v3ImportLoop_eq_dedupPass]
    exact mem_dedupBy_iff _ _ _

set_option maxRecDepth 4000 in
/-- Counterexample to C10 as stated: a well-formed record occurring
twice is carried only once — the second, equally well-formed occurrence
is dropped by the dedup key check, not carried into the output. -/
theorem merge_drops_malformed_cex :
    v3ImportKey wellFormedRecordJson = .ok "hello world" ∧
    (v3ImportLoop [some wellFormedRecordJson, some wellFormedRecordJson] [] []).1.2 =
      [wellFormedRecordJson] :=
  ⟨rfl, rfl⟩

/-- Witness for C10 at a concrete input: one unparsable line and one
well-formed record; the record is kept, nothing is reported. -/
theorem merge_drops_malformed_witness :
    (handCraftedLoad [none, some wellFormedRecordJson]).1 =
      ([none, some wellFormedRecordJson].filterMap id) ∧
    (handCraftedLoad [none, some wellFormedRecordJson]).2 = [] :=
  merge_drops_malformed_silently.1 [none, some wellFormedRecordJson]

/-! ### fine-tune.py: validate lemmas -/

theorem except_bind_ok {ε α β : Type} (a : α) (f : α → Except ε β) :
    (Except.ok a >>= f) = f a := rfl

theorem except_bind_error {ε α β : Type} (e : ε) (f : α → Except ε β) :
    ((Except.error e : Except ε α) >>= f) = Except.error e := rfl

theorem except_pure_eq {ε α : Type} (a : α) : (pure a : Except ε α) = .ok a := rfl

/-- `m["role"]` succeeds with the role value on objects carrying the key. -/
theorem getItem_role_ok (m : JVal) (h1 : isMsgObj m = true) (h2 : hasRoleKey m = true) :
    m.getItem "role" = .ok (roleVal m) := by
  cases m with
  | jobj kvs =>
    rcases Option.isSome_iff_exists.mp (by simpa [hasRoleKey] using h2) with ⟨v, hv⟩
    simp [JVal.getItem, roleVal, hv]
  | jstr s => simp [isMsgObj] at h1
  | jnum n => simp [isMsgObj] at h1
  | jbool b => simp [isMsgObj] at h1
  | jnull => simp [isMsgObj] at h1
  | jarr xs => simp [isMsgObj] at h1

/-- `m["role"]` raises on non-objects and on objects without the key. -/
theorem getItem_role_error (m : JVal)
    (h : ¬(isMsgObj m = true ∧ hasRoleKey m = true)) :
    ∃ err, m.getItem "role" = .error err := by
  cases m with
  | jobj kvs =>
    rcases hl : lookupKey kvs "role" with _ | v
    · exact ⟨.keyError "role", by simp [JVal.getItem, hl]⟩
    · exact absurd ⟨rfl, by simp [hasRoleKey, hl]⟩ h
  | jstr s => exact ⟨.typeError, rfl⟩
  | jnum n => exact ⟨.typeError, rfl⟩
  | jbool b => exact ⟨.typeError, rfl⟩
  | jnull => exact ⟨.typeError, rfl⟩
  | jarr xs => exact ⟨.typeError, rfl⟩

/-- The role comprehension succeeds on messages that all carry roles. -/
theorem getRoles_ok (ms : List JVal)
    (h : ∀ m ∈ ms, isMsgObj m = true ∧ hasRoleKey m = true) :
    getRoles ms = .ok (ms.map roleVal) := by
  induction ms with
  | nil => rfl
  | cons m rest ih =>
    have hm := h m (List.mem_cons_self _ _)
    have ih' := ih (fun x hx => h x (List.mem_cons_of_mem _ hx))
    simp only [getRoles, getItem_role_ok m hm.1 hm.2, except_bind_ok, ih',
      List.map_cons]
    rfl

/-- The role comprehension raises as soon as one message fails. -/
theorem getRoles_error (ms : List JVal)
    (h : ¬ ∀ m ∈ ms, isMsgObj m = true ∧ hasRoleKey m = true) :
    ∃ err, getRoles ms = .error err := by
  induction ms with
  | nil => exact absurd (by simp) h
  | cons m rest ih =>
    by_cases hm : isMsgObj m = true ∧ hasRoleKey m = true
    · have hrest : ¬ ∀ x ∈ rest, isMsgObj x = true ∧ hasRoleKey x = true := by
        intro hall
        refine h ?_
        intro x hx
        rcases List.mem_cons.mp hx with rfl | hx
        · exact hm
        · exact hall x hx
      rcases ih hrest with ⟨err, herr⟩
      exact ⟨err, by
        simp only [getRoles, getItem_role_ok m hm.1 hm.2, except_bind_ok, herr,
          except_bind_error]⟩
    · rcases getItem_role_error m hm with ⟨err, herr⟩
      exact ⟨err, by simp only [getRoles, herr, except_bind_error]⟩

/-- The missing-field loop never raises on message objects and produces
exactly the spec-side error list. -/
theorem missingFieldErrors_ok (i : Nat) (ms : List JVal)
    (h : ∀ m ∈ ms, isMsgObj m = true) :
    ∀ j, missingFieldErrors i j ms = .ok (specMissingFieldErrors i j ms) := by
  induction ms with
  | nil => intro j; rfl
  | cons m rest ih =>
    intro j
    have hm := h m (List.mem_cons_self _ _)
    have ih' := ih (fun x hx => h x (List.mem_cons_of_mem _ hx)) (j + 1)
    obtain ⟨kvs, rfl⟩ : ∃ kvs, m = .jobj kvs := by
      cases m with
      | jobj kvs => exact ⟨kvs, rfl⟩
      | jstr s => simp [isMsgObj] at hm
      | jnum n => simp [isMsgObj] at hm
      | jbool b => simp [isMsgObj] at hm
      | jnull => simp [isMsgObj] at hm
      | jarr xs => simp [isMsgObj] at hm
    have hrole : (JVal.jobj kvs).hasKey "role" = .ok (hasRoleKey (.jobj kvs)) := rfl
    have hcont : (JVal.jobj kvs).hasKey "content" = .ok (hasContentKey (.jobj kvs)) := rfl
    cases hr : hasRoleKey (.jobj kvs) <;> cases hc : hasContentKey (.jobj kvs) <;>
      simp only [missingFieldErrors, specMissingFieldErrors, hrole, hcont, hr, hc,
        except_bind_ok, ih', Bool.not_false, Bool.not_true, Bool.or_self,
        Bool.or_true, Bool.true_or, Bool.false_or, Bool.and_self, Bool.true_and,
        Bool.false_and, Bool.and_true, Bool.and_false, if_true, if_false,
        ite_true, ite_false] <;> rfl

/-- Inversion for `getItem`: success forces an object with the key. -/
theorem getItem_ok_inv {m : JVal} {k : String} {v : JVal}
    (h : m.getItem k = .ok v) :
    ∃ kvs, m = .jobj kvs ∧ lookupKey kvs k = some v := by
  cases m with
  | jobj kvs =>
    rcases hl : lookupKey kvs k with _ | v'
    · simp [JVal.getItem, hl] at h
    · simp only [JVal.getItem, hl] at h
      cases h
      exact ⟨kvs, rfl, hl⟩
  | jstr s => simp [JVal.getItem] at h
  | jnum n => simp [JVal.getItem] at h
  | jbool b => simp [JVal.getItem] at h
  | jnull => simp [JVal.getItem] at h
  | jarr xs => simp [JVal.getItem] at h

/-- `len(c)` succeeds exactly on the values with a length. -/
theorem pyLen_ok_iff (c : JVal) :
    (∃ k, c.pyLen = .ok k) ↔ contentHasLen c = true := by
  cases c <;> simp [JVal.pyLen, contentHasLen]

/-- The token-count generator succeeds exactly when every message has a
content value with a length. -/
theorem contentChars_ok_iff (ms : List JVal) :
    (∃ n, contentChars ms = .ok n) ↔ ∀ m ∈ ms, contentOK m = true := by
  induction ms with
  | nil =>
    constructor
    · intro _ m hm
      simp at hm
    · intro _
      exact ⟨0, rfl⟩
  | cons m rest ih =>
    constructor
    · rintro ⟨n, hn⟩
      rcases hg : m.getItem "content" with err | c
      · rw [contentChars, hg, except_bind_error] at hn
        cases hn
      · rcases hl : c.pyLen with err | k
        · rw [contentChars, hg, except_bind_ok, hl, except_bind_error] at hn
          cases hn
        · rcases hrest : contentChars rest with err | t
          · rw [contentChars, hg, except_bind_ok, hl, except_bind_ok, hrest,
              except_bind_error] at hn
            cases hn
          · intro x hx
            rcases List.mem_cons.mp hx with rfl | hx
            · rcases getItem_ok_inv hg with ⟨kvs, rfl, hlk⟩
              have hcl : contentHasLen c = true := (pyLen_ok_iff c).mp ⟨k, hl⟩
              simp [contentOK, hlk, hcl]
            · exact ih.mp ⟨t, hrest⟩ x hx
    · intro h
      have hm := h m (List.mem_cons_self _ _)
      obtain ⟨kvs, rfl⟩ : ∃ kvs, m = .jobj kvs := by
        cases m with
        | jobj kvs => exact ⟨kvs, rfl⟩
        | jstr s => simp [contentOK] at hm
        | jnum n => simp [contentOK] at hm
        | jbool b => simp [contentOK] at hm
        | jnull => simp [contentOK] at hm
        | jarr xs => simp [contentOK] at hm
      rcases hl : lookupKey kvs "content" with _ | c
      · simp [contentOK, hl] at hm
      · have hcl : contentHasLen c = true := by simpa [contentOK, hl] using hm
        rcases (pyLen_ok_iff c).mpr hcl with ⟨k, hk⟩
        rcases ih.mpr (fun x hx => h x (List.mem_cons_of_mem _ hx)) with ⟨t, ht⟩
        refine ⟨k + t, ?_⟩
        have hg : (JVal.jobj kvs).getItem "content" = .ok c := by
          simp [JVal.getItem, hl]
        rw [contentChars, hg, except_bind_ok, hk, except_bind_ok, ht, except_bind_ok]
        rfl

/-- On chat-shaped lines whose messages all carry `"role"`, the per-line
check collects exactly the spec-side failure list (and never raises). -/
theorem checkLine_eq_spec (i : Nat) (l : Option JVal)
    (h1 : chatShapedLine l = true) (h2 : rolesAllPresent l = true) :
    checkLine i l = .ok (specLineErrors i l) := by
  match l with
  | none => rfl
  | some data =>
    match data with
    | .jstr s => simp [chatShapedLine] at h1
    | .jnum n => simp [chatShapedLine] at h1
    | .jbool b => simp [chatShapedLine] at h1
    | .jnull => simp [chatShapedLine] at h1
    | .jarr xs => simp [chatShapedLine] at h1
    | .jobj kvs =>
      rcases hl : lookupKey kvs "messages" with _ | mv
      · simp [checkLine, specLineErrors, JVal.hasKey, hl, except_bind_ok,
          except_pure_eq]
      · obtain ⟨ms, rfl, hobj⟩ : ∃ ms, mv = .jarr ms ∧ ∀ m ∈ ms, isMsgObj m = true := by
          cases mv with
          | jarr ms =>
            refine ⟨ms, rfl, ?_⟩
            have hms : ms.all isMsgObj = true := by
              simpa [chatShapedLine, hl] using h1
            exact fun m hm => List.all_eq_true.mp hms m hm
          | jstr s => simp [chatShapedLine, hl] at h1
          | jnum n => simp [chatShapedLine, hl] at h1
          | jbool b => simp [chatShapedLine, hl] at h1
          | jnull => simp [chatShapedLine, hl] at h1
          | jobj kvs2 => simp [chatShapedLine, hl] at h1
        by_cases hlen : ms.length < 2
        · simp [checkLine, specLineErrors, JVal.hasKey, hl, JVal.getItem,
            JVal.pyLen, except_bind_ok, except_pure_eq, hlen]
        · have hall : ∀ m ∈ ms, hasRoleKey m = true := by
            have h2' : (decide (ms.length < 2) || ms.all hasRoleKey) = true := by
              simpa [rolesAllPresent, hl] using h2
            rcases Bool.or_eq_true_iff.mp h2' with hd | hallb
            · exact absurd (of_decide_eq_true hd) hlen
            · exact fun m hm => List.all_eq_true.mp hallb m hm
          have hroles := getRoles_ok ms (fun m hm => ⟨hobj m hm, hall m hm⟩)
          have hmfe := missingFieldErrors_ok i ms hobj 0
          obtain ⟨m0, ms', rfl⟩ : ∃ m0 ms', ms = m0 :: ms' := by
            cases ms with
            | nil => exact absurd (by simp) hlen
            | cons a b => exact ⟨a, b, rfl⟩
          simp only [checkLine, specLineErrors, JVal.hasKey, hl, JVal.getItem,
            JVal.pyLen, JVal.pyIter, except_bind_ok, hroles, hmfe, hlen,
            Option.isSome_some, Bool.not_true, if_false, ite_false, if_neg hlen,
            List.map_cons, List.getElem?_cons_zero, firstRoleVal]
          rfl

/-- The spec-side missing-field list is empty exactly when every message
carries both keys. -/
theorem specMissingFieldErrors_eq_nil_iff (i : Nat) :
    ∀ (ms : List JVal) (j : Nat),
      specMissingFieldErrors i j ms = [] ↔
        ∀ m ∈ ms, (hasRoleKey m && hasContentKey m) = true := by
  intro ms
  induction ms with
  | nil =>
    intro j
    simp [specMissingFieldErrors]
  | cons m rest ih =>
    intro j
    by_cases hm : (hasRoleKey m && hasContentKey m) = true
    · simp only [specMissingFieldErrors, if_pos hm, ih (j + 1)]
      constructor
      · intro h x hx
        rcases List.mem_cons.mp hx with rfl | hx
        · exact hm
        · exact h x hx
      · intro h x hx
        exact h x (List.mem_cons_of_mem _ hx)
    · simp only [specMissingFieldErrors, if_neg hm]
      constructor
      · intro h
        cases h
      · intro h
        exact absurd (h m (List.mem_cons_self _ _)) hm

/-- `contentOK` forces the `"content"` key on message objects. -/
theorem contentOK_hasContentKey {m : JVal} (h : contentOK m = true) :
    hasContentKey m = true := by
  cases m with
  | jobj kvs =>
    rcases hl : lookupKey kvs "content" with _ | c
    · simp [contentOK, hl] at h
    · simp [hasContentKey, hl]
  | jstr s => simp [contentOK] at h
  | jnum n => simp [contentOK] at h
  | jbool b => simp [contentOK] at h
  | jnull => simp [contentOK] at h
  | jarr xs => simp [contentOK] at h

/-- On an object line whose `messages` value has a length of at least
two, a raising role comprehension propagates: `validate`'s per-line work
ends in that exception. -/
theorem checkLine_error_of_getRoles_error (i : Nat) (kvs : List (String × JVal))
    (mv : JVal) (hl : lookupKey kvs "messages" = some mv) (n : Nat)
    (hn : mv.pyLen = .ok n) (hlen : ¬ n < 2) (ms : List JVal)
    (hit : mv.pyIter = .ok ms) (err : PyErr) (herr : getRoles ms = .error err) :
    checkLine i (some (.jobj kvs)) = .error err := by
  simp only [checkLine, JVal.hasKey, hl, except_bind_ok, Option.isSome_some,
    Bool.not_true, Bool.false_eq_true, if_false, ite_false, JVal.getItem, hn,
    hit, if_neg hlen, herr, except_bind_error]

/-- The per-line acceptance characterization: the check loop finds
nothing and the statistics pass survives exactly on `lineOK` lines. -/
theorem checkLine_statsLine_iff (i : Nat) (l : Option JVal) :
    (checkLine i l = .ok [] ∧ ∃ n, statsLine l = .ok n) ↔ lineOK l = true := by
  match l with
  | none =>
    simp [checkLine, statsLine, lineOK, except_pure_eq]
  | some (.jnum v) =>
    simp [checkLine, lineOK, JVal.hasKey, except_bind_error]
  | some (.jbool v) =>
    simp [checkLine, lineOK, JVal.hasKey, except_bind_error]
  | some .jnull =>
    simp [checkLine, lineOK, JVal.hasKey, except_bind_error]
  | some (.jstr s) =>
    by_cases hc : strContains s "messages" = true
    · simp [checkLine, lineOK, JVal.hasKey, JVal.getItem, hc, except_bind_ok,
        except_bind_error]
    · have hc' : strContains s "messages" = false := by
        cases hb : strContains s "messages"
        · rfl
        · exact absurd hb hc
      simp [checkLine, lineOK, JVal.hasKey, hc', except_bind_ok, except_pure_eq]
  | some (.jarr xs) =>
    by_cases hc : (xs.any fun v => JVal.eqb v (.jstr "messages")) = true
    · simp [checkLine, lineOK, JVal.hasKey, JVal.getItem, hc, except_bind_ok,
        except_bind_error]
    · have hc' : (xs.any fun v => JVal.eqb v (.jstr "messages")) = false := by
        cases hb : (xs.any fun v => JVal.eqb v (.jstr "messages"))
        · rfl
        · exact absurd hb hc
      simp [checkLine, lineOK, JVal.hasKey, hc', except_bind_ok, except_pure_eq]
  | some (.jobj kvs) =>
    rcases hl : lookupKey kvs "messages" with _ | mv
    · simp [checkLine, lineOK, JVal.hasKey, hl, except_bind_ok, except_pure_eq]
    · match mv with
      | .jnum v =>
        simp [checkLine, lineOK, JVal.hasKey, JVal.getItem, JVal.pyLen, hl,
          except_bind_ok, except_bind_error]
      | .jbool v =>
        simp [checkLine, lineOK, JVal.hasKey, JVal.getItem, JVal.pyLen, hl,
          except_bind_ok, except_bind_error]
      | .jnull =>
        simp [checkLine, lineOK, JVal.hasKey, JVal.getItem, JVal.pyLen, hl,
          except_bind_ok, except_bind_error]
      | .jstr s =>
        by_cases hlen : s.length < 2
        · simp [checkLine, lineOK, JVal.hasKey, JVal.getItem, JVal.pyLen, hl,
            except_bind_ok, except_pure_eq, hlen]
        · obtain ⟨c, cs, hdata⟩ : ∃ c cs, s.toList = c :: cs := by
            cases hsl : s.toList with
            | nil =>
              exfalso
              have hsl' : s.data = [] := hsl
              have hz : s.length = 0 := by
                simp [String.length, hsl']
              omega
            | cons c cs => exact ⟨c, cs, rfl⟩
          rcases getRoles_error (s.toList.map fun ch => JVal.jstr (String.mk [ch]))
              (by
                rw [hdata, List.map_cons]
                intro hall
                have := (hall _ (List.mem_cons_self _ _)).1
                simp [isMsgObj] at this) with ⟨err, herr⟩
          have hchk : checkLine i (some (.jobj kvs)) = .error err :=
            checkLine_error_of_getRoles_error i kvs _ hl s.length rfl hlen _ rfl err herr
          simp [hchk, lineOK, hl]
      | .jobj kvs2 =>
        by_cases hlen : kvs2.length < 2
        · simp [checkLine, lineOK, JVal.hasKey, JVal.getItem, JVal.pyLen, hl,
            except_bind_ok, except_pure_eq, hlen]
        · obtain ⟨p, ps, hdata⟩ : ∃ p ps, kvs2 = p :: ps := by
            cases kvs2 with
            | nil => exact absurd (by simp) hlen
            | cons p ps => exact ⟨p, ps, rfl⟩
          rcases getRoles_error (kvs2.map fun kv => JVal.jstr kv.1)
              (by
                rw [hdata, List.map_cons]
                intro hall
                have := (hall _ (List.mem_cons_self _ _)).1
                simp [isMsgObj] at this) with ⟨err, herr⟩
          have hchk : checkLine i (some (.jobj kvs)) = .error err :=
            checkLine_error_of_getRoles_error i kvs _ hl kvs2.length rfl hlen _ rfl err herr
          simp [hchk, lineOK, hl]
      | .jarr ms =>
        by_cases hlen : ms.length < 2
        · have hd : decide (2 ≤ ms.length) = false := by
            rw [decide_eq_false_iff_not]
            omega
          have hlineOK : lineOK (some (.jobj kvs)) = false := by
            simp [lineOK, hl, hd]
          simp [checkLine, JVal.hasKey, JVal.getItem, JVal.pyLen, hl,
            except_bind_ok, except_pure_eq, hlen, hlineOK]
        · by_cases hro : ∀ m ∈ ms, isMsgObj m = true ∧ hasRoleKey m = true
          · have hshape : chatShapedLine (some (.jobj kvs)) = true := by
              simp only [chatShapedLine, hl]
              exact List.all_eq_true.mpr (fun m hm => (hro m hm).1)
            have hpresent : rolesAllPresent (some (.jobj kvs)) = true := by
              simp only [rolesAllPresent, hl]
              refine Bool.or_eq_true_iff.mpr (Or.inr ?_)
              exact List.all_eq_true.mpr (fun m hm => (hro m hm).2)
            have hchk := checkLine_eq_spec i (some (.jobj kvs)) hshape hpresent
            obtain ⟨m0, ms', rfl⟩ : ∃ m0 ms', ms = m0 :: ms' := by
              cases ms with
              | nil => exact absurd (by simp) hlen
              | cons a b => exact ⟨a, b, rfl⟩
            have hspec : specLineErrors i (some (.jobj kvs)) =
                (if isSystemOrUser (firstRoleVal (m0 :: ms')) then []
                 else [.badFirstRole i (firstRoleVal (m0 :: ms'))]) ++
                  specMissingFieldErrors i 0 (m0 :: ms') := by
              simp only [specLineErrors, hl]
              rw [if_neg hlen]
            have hstat : (∃ n, statsLine (some (.jobj kvs)) = .ok n) ↔
                ∀ m ∈ m0 :: ms', contentOK m = true := by
              constructor
              · rintro ⟨n, hn⟩
                rcases hcc : contentChars (m0 :: ms') with err | t
                · rw [statsLine, JVal.getItem] at hn
                  simp only [hl] at hn
                  rw [except_bind_ok] at hn
                  simp only [JVal.pyIter, except_bind_ok, hcc, except_bind_error] at hn
                  simp at hn
                · exact (contentChars_ok_iff _).mp ⟨t, hcc⟩
              · intro h
                rcases (contentChars_ok_iff _).mpr h with ⟨t, ht⟩
                refine ⟨t / 4, ?_⟩
                rw [statsLine, JVal.getItem]
                simp only [hl]
                rw [except_bind_ok]
                simp only [JVal.pyIter, except_bind_ok, ht, except_pure_eq]
            rw [hchk, hspec]
            have hfr : firstRoleVal (m0 :: ms') = roleVal m0 := by
              simp [firstRoleVal]
            constructor
            · rintro ⟨hok, hst⟩
              have hnil := Except.ok.inj hok
              rcases List.append_eq_nil.mp hnil with ⟨hfirst, hmfe⟩
              have hsys : isSystemOrUser (firstRoleVal (m0 :: ms')) = true := by
                by_contra hnot
                rw [if_neg hnot] at hfirst
                cases hfirst
              have hcOK := hstat.mp hst
              simp only [lineOK, hl]
              refine Bool.and_eq_true_iff.mpr ⟨Bool.and_eq_true_iff.mpr ⟨?_, ?_⟩, ?_⟩
              · rw [List.length_cons] at hlen
                rw [List.length_cons]
                exact decide_eq_true (by omega)
              · refine List.all_eq_true.mpr ?_
                intro m hm
                refine Bool.and_eq_true_iff.mpr ⟨(hro m hm).2, hcOK m hm⟩
              · exact hsys
            · intro hOK
              simp only [lineOK, hl] at hOK
              rcases Bool.and_eq_true_iff.mp hOK with ⟨hOK1, hsys⟩
              rcases Bool.and_eq_true_iff.mp hOK1 with ⟨-, hallOK⟩
              have hmsgs := List.all_eq_true.mp hallOK
              have hcontentOK : ∀ m ∈ m0 :: ms', contentOK m = true := by
                intro m hm
                exact (Bool.and_eq_true_iff.mp (hmsgs m hm)).2
              refine ⟨?_, hstat.mpr hcontentOK⟩
              rw [if_pos hsys]
              rw [(specMissingFieldErrors_eq_nil_iff i (m0 :: ms') 0).mpr ?_]
              · rfl
              · intro m hm
                refine Bool.and_eq_true_iff.mpr ⟨(Bool.and_eq_true_iff.mp (hmsgs m hm)).1,
                  contentOK_hasContentKey (Bool.and_eq_true_iff.mp (hmsgs m hm)).2⟩
          · rcases getRoles_error ms hro with ⟨err, herr⟩
            have hlineOK : lineOK (some (.jobj kvs)) = false := by
              obtain ⟨m, hmem, hbad⟩ :
                  ∃ m ∈ ms, ¬(isMsgObj m = true ∧ hasRoleKey m = true) := by
                by_contra hcon
                push_neg at hcon
                exact hro fun m hm => hcon m hm
              have hmsgOK : msgOK m = false := by
                cases m with
                | jobj kvs3 =>
                  rcases hr : lookupKey kvs3 "role" with _ | v
                  · simp [msgOK, hasRoleKey, hr]
                  · exact absurd ⟨rfl, by simp [hasRoleKey, hr]⟩ hbad
                | jstr s => simp [msgOK, hasRoleKey, contentOK]
                | jnum v => simp [msgOK, hasRoleKey, contentOK]
                | jbool v => simp [msgOK, hasRoleKey, contentOK]
                | jnull => simp [msgOK, hasRoleKey, contentOK]
                | jarr v => simp [msgOK, hasRoleKey, contentOK]
              have hall : ms.all msgOK = false := by
                rcases hb : ms.all msgOK with _ | _
                · rfl
                · have hmt := List.all_eq_true.mp hb m hmem
                  rw [hmsgOK] at hmt
                  exact Bool.noConfusion hmt
              simp [lineOK, hl, hall]
            have hchk : checkLine i (some (.jobj kvs)) = .error err :=
              checkLine_error_of_getRoles_error i kvs _ hl ms.length rfl hlen _ rfl err herr
            simp [hchk, hlineOK]

/-- The whole error-collection loop refines the spec-side failure list
on chat-shaped lines with all roles present. -/
theorem collectErrors_eq_spec :
    ∀ (lines : List (Option JVal)) (i : Nat),
      (∀ l ∈ lines, chatShapedLine l = true ∧ rolesAllPresent l = true) →
      collectErrors i lines = .ok (specErrorsFrom i lines) := by
  intro lines
  induction lines with
  | nil => intro i _; rfl
  | cons line rest ih =>
    intro i h
    rw [collectErrors, checkLine_eq_spec i line (h line (List.mem_cons_self _ _)).1
      (h line (List.mem_cons_self _ _)).2, except_bind_ok,
      ih (i + 1) (fun l hl => h l (List.mem_cons_of_mem _ hl)), except_bind_ok]
    rfl

/-- Error collection finds nothing and the statistics loop survives
exactly when every line is acceptable. -/
theorem collect_stats_ok_iff :
    ∀ (lines : List (Option JVal)) (i : Nat),
      ((collectErrors i lines = .ok [] ∧ ∃ n, statsLoop lines = .ok n) ↔
        ∀ l ∈ lines, lineOK l = true) := by
  intro lines
  induction lines with
  | nil =>
    intro i
    constructor
    · intro _ l hl
      simp at hl
    · intro _
      exact ⟨rfl, 0, rfl⟩
  | cons line rest ih =>
    intro i
    constructor
    · rintro ⟨hcol, n, hst⟩
      rcases hc : checkLine i line with err | es
      · rw [collectErrors, hc, except_bind_error] at hcol
        cases hcol
      rcases hr : collectErrors (i + 1) rest with err | tail
      · rw [collectErrors, hc, except_bind_ok, hr, except_bind_error] at hcol
        cases hcol
      rw [collectErrors, hc, except_bind_ok, hr, except_bind_ok, except_pure_eq] at hcol
      rcases List.append_eq_nil.mp (Except.ok.inj hcol) with ⟨hes, htail⟩
      subst hes
      subst htail
      rcases hsl : statsLine line with err | a
      · rw [statsLoop, hsl, except_bind_error] at hst
        cases hst
      rcases hslr : statsLoop rest with err | b
      · rw [statsLoop, hsl, except_bind_ok, hslr, except_bind_error] at hst
        cases hst
      intro l hl
      rcases List.mem_cons.mp hl with rfl | hl
      · exact (checkLine_statsLine_iff i l).mp ⟨hc, a, hsl⟩
      · exact (ih (i + 1)).mp ⟨hr, b, hslr⟩ l hl
    · intro hOK
      rcases (checkLine_statsLine_iff i line).mpr (hOK line (List.mem_cons_self _ _))
        with ⟨hc, a, hsl⟩
      rcases (ih (i + 1)).mpr (fun l hl => hOK l (List.mem_cons_of_mem _ hl))
        with ⟨hr, b, hslr⟩
      refine ⟨?_, a + b, ?_⟩
      · rw [collectErrors, hc, except_bind_ok, hr, except_bind_ok]
        rfl
      · rw [statsLoop, hsl, except_bind_ok, hslr, except_bind_ok]
        rfl

/-- `validate` returns `True` exactly when no error was collected and
the token-statistics pass survives. -/
theorem validate_ok_true_iff (lines : List (Option JVal)) :
    validate lines = .ok true ↔
      (validateErrors lines = .ok [] ∧ ∃ n, statsLoop lines = .ok n) := by
  unfold validate
  rcases h : validateErrors lines with err | es
  · rw [except_bind_error]
    constructor
    · intro hx
      cases hx
    · rintro ⟨hx, -⟩
      cases hx
  · rw [except_bind_ok]
    match es with
    | [] =>
      simp only [List.isEmpty_nil, if_true, ite_true]
      rcases hs : statsLoop lines with err | n
      · rw [except_bind_error]
        constructor
        · intro hx
          cases hx
        · rintro ⟨-, n, hn⟩
          cases hn
      · rw [except_bind_ok, except_pure_eq]
        exact ⟨fun _ => ⟨trivial, n, rfl⟩, fun _ => rfl⟩
    | e :: es' =>
      simp only [List.isEmpty_cons, Bool.false_eq_true, if_false, ite_false]
      constructor
      · intro hx
        exact Bool.noConfusion (Except.ok.inj hx)
      · rintro ⟨hx, -⟩
        exact List.noConfusion (Except.ok.inj hx)

/-- A line with fewer than two messages is never acceptable. -/
theorem fewer_not_lineOK (l : Option JVal) (h : fewerThanTwoMessages l = true) :
    lineOK l = false := by
  match l with
  | none => rfl
  | some (.jstr s) => rfl
  | some (.jnum v) => rfl
  | some (.jbool v) => rfl
  | some .jnull => rfl
  | some (.jarr xs) => rfl
  | some (.jobj kvs) =>
    rcases hl : lookupKey kvs "messages" with _ | mv
    · simp [fewerThanTwoMessages, hl] at h
    · match mv with
      | .jstr s => simp [lineOK, hl]
      | .jnum v => simp [lineOK, hl]
      | .jbool v => simp [lineOK, hl]
      | .jnull => simp [lineOK, hl]
      | .jobj kvs2 => simp [lineOK, hl]
      | .jarr ms =>
        have hlt : ms.length < 2 := by
          have h' := h
          simp [fewerThanTwoMessages, hl] at h'
          exact h'
        have hd : decide (2 ≤ ms.length) = false := decide_eq_false (by omega)
        simp [lineOK, hl, hd]

/-- C6 (amended): `validate` returns `True` exactly when every line
parses to an object whose `messages` value is an array of at least two
message objects, each carrying `role` and `content` with a content value
that has a length, and whose first role is `system` or `user`; in
particular a line with fewer than two messages prevents `validate` from
returning `True`. -/
theorem validate_true_iff_lines_ok :
    (∀ lines, validate lines = .ok true ↔ ∀ l ∈ lines, lineOK l = true) ∧
    (∀ lines l, l ∈ lines → fewerThanTwoMessages l = true →
       validate lines ≠ .ok true) := by
  have hmain : ∀ lines, validate lines = .ok true ↔ ∀ l ∈ lines, lineOK l = true := by
    intro lines
    rw [validate_ok_true_iff]
    exact collect_stats_ok_iff lines 0
  refine ⟨hmain, ?_⟩
  intro lines l hl hfew hval
  have hOK := (hmain lines).mp hval l hl
  rw [fewer_not_lineOK l hfew] at hOK
  exact Bool.noConfusion hOK

/-- Counterexample to C6 as stated: a line passing every reported check
(valid JSON, `messages` present, two messages, first role `user`, both
messages with `role` and `content`) on which `validate` does not return
`True`: its numeric content makes the token-statistics pass raise. -/
theorem validate_true_iff_cex :
    checkLine 0 (some numContentLine) = .ok [] ∧
    validate [some numContentLine] = .error .typeError :=
  ⟨rfl, rfl⟩

/-- Witness for C6 applied at a one-message line. -/
theorem validate_true_iff_witness :
    some oneMessageLine ∈ [some oneMessageLine] ∧
    fewerThanTwoMessages (some oneMessageLine) = true ∧
    validate [some oneMessageLine] ≠ .ok true :=
  ⟨List.mem_singleton.mpr rfl, rfl,
   validate_true_iff_lines_ok.2 [some oneMessageLine] (some oneMessageLine)
     (List.mem_singleton.mpr rfl) rfl⟩

/-- C5 (amended): on chat-shaped files whose messages all carry
`"role"`, `validate` collects exactly the spec's failure list, line by
line in order, and reports that whole list; whenever the list is
non-empty, `train` returns without uploading a file, creating a job or
writing the job file; and when validation raises instead (a message
missing `"role"`), the exception propagates before any network call. -/
theorem validate_error_collection_and_abort :
    (∀ lines, (∀ l ∈ lines, chatShapedLine l = true ∧ rolesAllPresent l = true) →
       validateErrors lines = .ok (specErrors lines)) ∧
    (∀ lines es jobId, validateErrors lines = .ok es → es ≠ [] →
       trainRun lines jobId = .ok ([], none)) ∧
    (∀ lines err jobId, validateErrors lines = .error err →
       trainRun lines jobId = .error err) := by
  refine ⟨?_, ?_, ?_⟩
  · intro lines h
    exact collectErrors_eq_spec lines 0 h
  · intro lines es jobId hok hne
    have hval : validate lines = .ok false := by
      unfold validate
      rw [hok, except_bind_ok]
      match es, hne with
      | e :: es', _ =>
        simp only [List.isEmpty_cons, Bool.false_eq_true, if_false, ite_false]
        rfl
    unfold trainRun
    rw [hval, except_bind_ok]
    rfl
  · intro lines err jobId herr
    have hval : validate lines = .error err := by
      unfold validate
      rw [herr, except_bind_error]
    unfold trainRun
    rw [hval, except_bind_error]

/-- Counterexample to C5 as stated: a file with an unparsable first line
and a second record whose first message lacks `"role"`.  The claimed
behavior is a reported two-element list; the code instead raises
`KeyError('role')` out of the collection loop, losing the list. -/
theorem validate_error_collection_cex :
    validateErrors [none, some missingRoleLine] = .error (.keyError "role") := rfl

/-- Witness for C5 at a concrete input: a single one-message record is
collected as the spec's failure list and `train` makes no network call. -/
theorem validate_error_collection_witness :
    validateErrors [some oneMessageLine] = .ok (specErrors [some oneMessageLine]) ∧
    trainRun [some oneMessageLine] "ftjob-1" = .ok ([], none) := by
  have hchat : ∀ l ∈ [some oneMessageLine],
      chatShapedLine l = true ∧ rolesAllPresent l = true := by
    intro l hl
    rw [List.mem_singleton.mp hl]
    exact ⟨rfl, rfl⟩
  have h1 := validate_error_collection_and_abort.1 [some oneMessageLine] hchat
  refine ⟨h1, ?_⟩
  refine validate_error_collection_and_abort.2.1 [some oneMessageLine] _ "ftjob-1" h1 ?_
  have hspec : specErrors [some oneMessageLine] = [.needAtLeastTwo 0] := rfl
  rw [hspec]
  simp

/-- C4 (code bug): on a record containing a message without a `"role"`
key, `validate` raises an uncaught `KeyError` from the comprehension
`[m["role"] for m in messages]` (line 52) instead of returning `False`
with the `Missing 'role' or 'content'` report its own later check
(lines 56-58) was written to produce; `train` then dies with the same
exception rather than printing a report. -/
theorem validate_missing_role_raises :
    validate [some missingRoleLine] = .error (.keyError "role") ∧
    trainRun [some missingRoleLine] "ftjob-2" = .error (.keyError "role") :=
  ⟨rfl, rfl⟩

/-- C1: both page template generators are deterministic — `make_page` is
pure string interpolation over its parameters (the modules seed `random`
but `make_page` never consults it), so two calls with identical tuples
of (business, fonts, palette, theme flag, layout flags, hero style, card
style) return byte-identical HTML strings. -/
theorem make_page_deterministic :
    (∀ (b b' : V2Business) (f f' : FontPairing) (p p' : V2Palette)
       (d d' hp hp' hs hs' ht ht' hf hf' : Bool) (hero hero' card card' : String),
       b = b' → f = f' → p = p' → d = d' → hp = hp' → hs = hs' → ht = ht' →
       hf = hf' → hero = hero' → card = card' →
       makePageV2 b f p d hp hs ht hf hero card =
         makePageV2 b' f' p' d' hp' hs' ht' hf' hero' card') ∧
    (∀ (b b' : V4Business) (f f' : String × String × String) (p p' : V4Palette)
       (d d' hp hp' hs hs' ht ht' hf hf' : Bool) (hero hero' card card' : String),
       b = b' → f = f' → p = p' → d = d' → hp = hp' → hs = hs' → ht = ht' →
       hf = hf' → hero = hero' → card = card' →
       makePageV4 b f p d hp hs ht hf hero card =
         makePageV4 b' f' p' d' hp' hs' ht' hf' hero' card') := by
  constructor
  · intro b b' f f' p p' d d' hp hp' hs hs' ht ht' hf hf' hero hero' card card'
      hb hfo hpa hd hhp hhs hht hhf hhe hca
    subst hb
    subst hfo
    subst hpa
    subst hd
    subst hhp
    subst hhs
    subst hht
    subst hhf
    subst hhe
    subst hca
    rfl
  · intro b b' f f' p p' d d' hp hp' hs hs' ht ht' hf hf' hero hero' card card'
      hb hfo hpa hd hhp hhs hht hhf hhe hca
    subst hb
    subst hfo
    subst hpa
    subst hd
    subst hhp
    subst hhs
    subst hht
    subst hhf
    subst hhe
    subst hca
    rfl

/-- Witness for C1 at concrete design-system entries from the sources. -/
theorem make_page_deterministic_witness :
    makePageV2 nexusBusinessV2 techModernFonts indigoPaletteV2 true true true false false
        "centered" "standard" =
      makePageV2 nexusBusinessV2 techModernFonts indigoPaletteV2 true true true false false
        "centered" "standard" ∧
    makePageV4 nexusBusinessV4 spaceGroteskFontsV4 indigoPaletteV4 true true true true true
        "centered" "solid" =
      makePageV4 nexusBusinessV4 spaceGroteskFontsV4 indigoPaletteV4 true true true true true
        "centered" "solid" :=
  ⟨make_page_deterministic.1 nexusBusinessV2 nexusBusinessV2 techModernFonts techModernFonts
      indigoPaletteV2 indigoPaletteV2 true true true true true true false false false false
      "centered" "centered" "standard" "standard" rfl rfl rfl rfl rfl rfl rfl rfl rfl rfl,
   make_page_deterministic.2 nexusBusinessV4 nexusBusinessV4 spaceGroteskFontsV4
      spaceGroteskFontsV4 indigoPaletteV4 indigoPaletteV4 true true true true true true
      true true true true "centered" "centered" "solid" "solid"
      rfl rfl rfl rfl rfl rfl rfl rfl rfl rfl⟩
